import Mathlib

/-!
# Hydrogen loader: ACPI discovery (`loader/src/acpi.c`)

A shallow embedding of the ACPI discovery engine of the Hydrogen boot loader
and proofs about it.

Modelling conventions
* Physical memory is a function from addresses to bytes (`Mem`); every read
  reduces the stored value modulo 256, multi-byte reads are little endian (x86).
* `uintptr_t` and `size_t` are 64 bit wide (the loader runs in long mode and
  casts `uint64_t` table entries directly to pointers); arithmetic on them is
  taken modulo `WORD = 2 ^ 64`.  Array indexing (`bytes[i]`, `entry[i]`) is
  pointer arithmetic and is not wrapped.
* The info tables (`info_root`, `info_cpu`, `info_ioapic`) are kept as a
  separate value of type `Info`; the firmware tables that are parsed are
  assumed not to overlap them.
* Loops that the C code does not bound take a `fuel` argument; running out of
  fuel is reported as `Outcome.fuel` (or `none`), never as a result.
-/

namespace Hydrogen

/-! ## Memory and machine words -/

/-- Physical memory: one byte per address. -/
abbrev Mem := Nat → Nat

/-- Modulus of `uintptr_t` and `size_t`. -/
def WORD : Nat := 2 ^ 64

/-- Read of a `uint8_t`. -/
def read8 (mem : Mem) (a : Nat) : Nat := mem a % 256

/-- Read of a `uint16_t` (little endian). -/
def read16 (mem : Mem) (a : Nat) : Nat := read8 mem a + 256 * read8 mem (a + 1)

/-- Read of a `uint32_t` (little endian). -/
def read32 (mem : Mem) (a : Nat) : Nat := read16 mem a + 65536 * read16 mem (a + 2)

/-- Read of a `uint64_t` (little endian). -/
def read64 (mem : Mem) (a : Nat) : Nat := read32 mem a + 4294967296 * read32 mem (a + 4)

/-- Store of one byte. -/
def write8 (mem : Mem) (a v : Nat) : Mem := fun x => if x = a then v else mem x

/-- Memory holding the bytes `bs` from address `base` on and `fill` elsewhere. -/
def memOf (fill base : Nat) (bs : List Nat) : Mem :=
  fun a => if a < base then fill else bs.getD (a - base) fill

/-! ## `acpi_check` -/

/-- The loop of `acpi_check`: `n` iterations are left, `i` is the loop counter
and `sum` the `uint8_t` accumulator. -/
def acpi_check_loop (mem : Mem) (bytes : Nat) : Nat → Nat → Nat → Nat
  | 0, _, sum => sum
  | n + 1, i, sum => acpi_check_loop mem bytes n (i + 1) ((sum + read8 mem (bytes + i)) % 256)

/-- The function `acpi_check(table, length)`. -/
def acpi_check (mem : Mem) (table length : Nat) : Bool :=
  acpi_check_loop mem table length 0 0 == 0

/-! ## Word arithmetic -/

/-- Addition of two `uintptr_t` / `size_t` values. -/
def wadd (a b : Nat) : Nat := (a + b) % WORD

/-- Subtraction of two `uintptr_t` / `size_t` values. -/
def wsub (a b : Nat) : Nat := (a % WORD + (WORD - b % WORD)) % WORD

/-! ## Declarations of the loader's headers -/

/-- Modelled from the spec: `memcmp` is declared in the loader's `string.h`, which
is not among the sources.  It is given the contract of the C library function of
that name, which is the reading under which the spec calls the signature test of
`acpi_parse_table` always true: the result is zero exactly when the first `n`
bytes agree, and otherwise the difference of the first pair of bytes that differ.
`a` is the address of the first operand, `b` holds the bytes of the second one (a
string literal). `n` iterations are left and `i` is the current index. -/
def memcmp_loop (mem : Mem) (a : Nat) (b : List Nat) : Nat → Nat → Int
  | 0, _ => 0
  | n + 1, i =>
    if read8 mem (a + i) = b.getD i 0 then memcmp_loop mem a b n (i + 1)
    else (read8 mem (a + i) : Int) - (b.getD i 0 : Int)

/-- Modelled from the spec: `memcmp(a, b, n)` of the loader's `string.h` (not
among the sources), with the contract of the C library function; see
`memcmp_loop`. -/
def memcmp (mem : Mem) (a : Nat) (b : List Nat) (n : Nat) : Int :=
  memcmp_loop mem a b n 0

/-- The bytes of a C string literal. -/
def cstr (s : String) : List Nat := s.toList.map Char.toNat

/-- The declarations of `acpi.h` that `acpi.c` uses.  The header is not among the
sources, so the field offsets, structure sizes and constants are parameters of
the embedding.  Field widths are those of the ACPI tables: 8 bit for `revision`,
`type`, `length` of an entry, the ids, `bus` and `irq`; 16 bit for the flags of
an override entry; 32 bit for `rsdt_addr`, the `length` fields of the root
pointer and of a table header, `lapic_paddr`, the flags of the table, `mmio_addr`,
`gsi_base` and `gsi`; 64 bit for `xsdt_addr`. -/
structure AcpiH where
  /-- Offset of `acpi_rsdp_t.revision`. -/
  rsdp_revision : Nat
  /-- Offset of `acpi_rsdp_t.rsdt_addr`. -/
  rsdp_rsdt_addr : Nat
  /-- Offset of `acpi_rsdp_t.length`. -/
  rsdp_length : Nat
  /-- Offset of `acpi_rsdp_t.xsdt_addr`. -/
  rsdp_xsdt_addr : Nat
  /-- Offset of `acpi_sdt_header_t.signature`. -/
  sdt_signature : Nat
  /-- Offset of `acpi_sdt_header_t.length`. -/
  sdt_length : Nat
  /-- Value of `sizeof (acpi_sdt_header_t)`. -/
  sizeof_sdt_header : Nat
  /-- Offset of `acpi_madt_t.lapic_paddr`. -/
  madt_lapic_paddr : Nat
  /-- Offset of `acpi_madt_t.flags`. -/
  madt_flags : Nat
  /-- Value of `sizeof (acpi_madt_t)`. -/
  sizeof_madt : Nat
  /-- Offset of `acpi_madt_entry_t.type`. -/
  entry_type : Nat
  /-- Offset of `acpi_madt_entry_t.length`. -/
  entry_length : Nat
  /-- Offset of `acpi_madt_lapic_t.acpi_id`. -/
  lapic_acpi_id : Nat
  /-- Offset of `acpi_madt_lapic_t.apic_id`. -/
  lapic_apic_id : Nat
  /-- Offset of `acpi_madt_ioapic_t.apic_id`. -/
  ioapic_apic_id : Nat
  /-- Offset of `acpi_madt_ioapic_t.mmio_addr`. -/
  ioapic_mmio_addr : Nat
  /-- Offset of `acpi_madt_ioapic_t.gsi_base`. -/
  ioapic_gsi_base : Nat
  /-- Offset of `acpi_madt_iso_t.bus`. -/
  iso_bus : Nat
  /-- Offset of `acpi_madt_iso_t.irq`. -/
  iso_irq : Nat
  /-- Offset of `acpi_madt_iso_t.gsi`. -/
  iso_gsi : Nat
  /-- Offset of `acpi_madt_iso_t.flags`. -/
  iso_flags : Nat
  ACPI_MADT_TYPE_LAPIC : Nat
  ACPI_MADT_TYPE_IOAPIC : Nat
  ACPI_MADT_TYPE_ISO : Nat
  ACPI_MADT_PCAT_COMPAT : Nat
  ACPI_MADT_ISO_POLARITY_OFFSET : Nat
  ACPI_MADT_ISO_TRIGGER_OFFSET : Nat
  ACPI_MADT_ISO_POLARITY_LOW : Nat
  ACPI_MADT_ISO_TRIGGER_LEVEL : Nat

/-- Modelled from the spec: `acpi.h` is not among the sources; this is the layout
of the firmware tables the spec speaks of (root pointer with a 20 byte legacy
part, 36 byte table header, multi-APIC table with typed, self-sized entries), as
the ACPI specification fixes it.  It is used for concrete tables only; the
general theorems hold for every `AcpiH`. -/
def acpi_h : AcpiH where
  rsdp_revision := 15
  rsdp_rsdt_addr := 16
  rsdp_length := 20
  rsdp_xsdt_addr := 24
  sdt_signature := 0
  sdt_length := 4
  sizeof_sdt_header := 36
  madt_lapic_paddr := 36
  madt_flags := 40
  sizeof_madt := 44
  entry_type := 0
  entry_length := 1
  lapic_acpi_id := 2
  lapic_apic_id := 3
  ioapic_apic_id := 2
  ioapic_mmio_addr := 4
  ioapic_gsi_base := 8
  iso_bus := 2
  iso_irq := 3
  iso_gsi := 4
  iso_flags := 8
  ACPI_MADT_TYPE_LAPIC := 0
  ACPI_MADT_TYPE_IOAPIC := 1
  ACPI_MADT_TYPE_ISO := 2
  ACPI_MADT_PCAT_COMPAT := 1
  ACPI_MADT_ISO_POLARITY_OFFSET := 0
  ACPI_MADT_ISO_TRIGGER_OFFSET := 2
  ACPI_MADT_ISO_POLARITY_LOW := 3
  ACPI_MADT_ISO_TRIGGER_LEVEL := 3

/-! ## Info tables (`hydrogen.h`) -/

/-- The constant `HY_INFO_CPU_FLAG_PRESENT`. -/
def HY_INFO_CPU_FLAG_PRESENT : Nat := 1 <<< 0

/-- The constant `HY_INFO_CPU_FLAG_BSP`. -/
def HY_INFO_CPU_FLAG_BSP : Nat := 1 <<< 1

/-- The constant `HY_INFO_FLAG_PCAT_COMPAT`. -/
def HY_INFO_FLAG_PCAT_COMPAT : Nat := 1 <<< 0

/-- The constant `HY_INFO_IRQ_FLAG_ACTIVE_LOW`. -/
def HY_INFO_IRQ_FLAG_ACTIVE_LOW : Nat := 1 <<< 0

/-- The constant `HY_INFO_IRQ_FLAG_LEVEL`. -/
def HY_INFO_IRQ_FLAG_LEVEL : Nat := 1 <<< 1

/-- The structure `hy_info_root_t`. -/
structure InfoRoot where
  magic : Nat
  flags : Nat
  lapic_paddr : Nat
  rsdp_paddr : Nat
  idt_paddr : Nat
  gdt_paddr : Nat
  tss_paddr : Nat
  free_paddr : Nat
  irq_gsi : Nat → Nat
  irq_flags : Nat → Nat
  cpu_count_active : Nat
  cpu_count : Nat
  ioapic_count : Nat
  mmap_count : Nat
  module_count : Nat

/-- The structure `hy_info_cpu_t`. -/
structure InfoCpu where
  apic_id : Nat
  acpi_id : Nat
  flags : Nat
  lapic_timer_freq : Nat

/-- The structure `hy_info_ioapic_t`. -/
structure InfoIoapic where
  apic_id : Nat
  version : Nat
  gsi_base : Nat
  gsi_count : Nat
  mmio_paddr : Nat

/-- The info tables the discovery writes: `*info_root`, `info_cpu[]` and
`info_ioapic[]`. -/
structure Info where
  root : InfoRoot
  cpu : Nat → InfoCpu
  ioapic : Nat → InfoIoapic

/-- Info tables filled with zero bytes. -/
def Info.zero : Info where
  root :=
    { magic := 0, flags := 0, lapic_paddr := 0, rsdp_paddr := 0, idt_paddr := 0,
      gdt_paddr := 0, tss_paddr := 0, free_paddr := 0, irq_gsi := fun _ => 0,
      irq_flags := fun _ => 0, cpu_count_active := 0, cpu_count := 0, ioapic_count := 0,
      mmap_count := 0, module_count := 0 }
  cpu := fun _ => { apic_id := 0, acpi_id := 0, flags := 0, lapic_timer_freq := 0 }
  ioapic := fun _ => { apic_id := 0, version := 0, gsi_base := 0, gsi_count := 0, mmio_paddr := 0 }

/-- How a run of a discovery function ends: it returns with the info tables in
state `info`, it stops in `SCREEN_PANIC` with a message (the info tables being
`info` at that point), or the fuel given to the model ran out. -/
inductive Outcome where
  | done (info : Info)
  | panic (msg : String) (info : Info)
  | fuel

/-- Modelled from the spec: the macro `SCREEN_PANIC` of `screen.h`, which is not
among the sources.  A fatal failure halts the loader with a diagnostic, so the
macro is taken to show `msg` and never to return. -/
def SCREEN_PANIC (msg : String) (info : Info) : Outcome := .panic msg info

/-- Sequencing: `k` runs only when the first part returned. -/
def Outcome.andThen (o : Outcome) (k : Info → Outcome) : Outcome :=
  match o with
  | .done info => k info
  | .panic msg info => .panic msg info
  | .fuel => .fuel

/-! ## Entries of the multi-APIC table -/

/-- The fields of an `acpi_madt_lapic_t` that the loader reads. -/
structure MadtLapic where
  acpi_id : Nat
  apic_id : Nat

/-- The fields of an `acpi_madt_ioapic_t` that the loader reads. -/
structure MadtIoapic where
  apic_id : Nat
  mmio_addr : Nat
  gsi_base : Nat

/-- The fields of an `acpi_madt_iso_t` that the loader reads. -/
structure MadtIso where
  bus : Nat
  irq : Nat
  gsi : Nat
  flags : Nat

/-- The `acpi_madt_lapic_t` stored at address `entry`. -/
def read_madt_lapic (h : AcpiH) (mem : Mem) (entry : Nat) : MadtLapic where
  acpi_id := read8 mem (entry + h.lapic_acpi_id)
  apic_id := read8 mem (entry + h.lapic_apic_id)

/-- The `acpi_madt_ioapic_t` stored at address `entry`. -/
def read_madt_ioapic (h : AcpiH) (mem : Mem) (entry : Nat) : MadtIoapic where
  apic_id := read8 mem (entry + h.ioapic_apic_id)
  mmio_addr := read32 mem (entry + h.ioapic_mmio_addr)
  gsi_base := read32 mem (entry + h.ioapic_gsi_base)

/-- The `acpi_madt_iso_t` stored at address `entry`. -/
def read_madt_iso (h : AcpiH) (mem : Mem) (entry : Nat) : MadtIso where
  bus := read8 mem (entry + h.iso_bus)
  irq := read8 mem (entry + h.iso_irq)
  gsi := read32 mem (entry + h.iso_gsi)
  flags := read16 mem (entry + h.iso_flags)

/-! ## `acpi.c` -/

/-- The function `acpi_parse_madt_lapic`. -/
def acpi_parse_madt_lapic (entry : MadtLapic) (info : Info) : Info :=
  let cpu : InfoCpu :=
    { info.cpu entry.apic_id with
      acpi_id := entry.acpi_id
      apic_id := entry.apic_id
      flags := HY_INFO_CPU_FLAG_PRESENT }
  let cpus := Function.update info.cpu entry.apic_id cpu
  let root : InfoRoot :=
    { info.root with cpu_count_active := (info.root.cpu_count_active + 1) % 65536 }
  let new_count := (entry.apic_id + 1) % WORD
  if root.cpu_count < new_count then
    { info with root := { root with cpu_count := new_count % 65536 }, cpu := cpus }
  else
    { info with root := root, cpu := cpus }

/-- The function `acpi_parse_madt_ioapic`. -/
def acpi_parse_madt_ioapic (entry : MadtIoapic) (info : Info) : Info :=
  let index := info.root.ioapic_count
  let root : InfoRoot := { info.root with ioapic_count := (info.root.ioapic_count + 1) % 65536 }
  let ioapic : InfoIoapic :=
    { info.ioapic index with
      apic_id := entry.apic_id
      mmio_paddr := entry.mmio_addr
      gsi_base := entry.gsi_base }
  { info with root := root, ioapic := Function.update info.ioapic index ioapic }

/-- The function `acpi_parse_madt_iso`. -/
def acpi_parse_madt_iso (h : AcpiH) (iso : MadtIso) (info : Info) : Info :=
  if iso.bus ≠ 1 ∨ iso.irq ≥ 16 then info
  else
    let irq := iso.irq
    let polarity := (iso.flags >>> h.ACPI_MADT_ISO_POLARITY_OFFSET) &&& 0b11
    let trigger := (iso.flags >>> h.ACPI_MADT_ISO_TRIGGER_OFFSET) &&& 0b11
    let root1 : InfoRoot := { info.root with irq_gsi := Function.update info.root.irq_gsi irq iso.gsi }
    let root2 : InfoRoot :=
      if polarity = h.ACPI_MADT_ISO_POLARITY_LOW then
        { root1 with
          irq_flags := Function.update root1.irq_flags irq
            ((root1.irq_flags irq ||| HY_INFO_IRQ_FLAG_ACTIVE_LOW) % 256) }
      else root1
    let root3 : InfoRoot :=
      if trigger = h.ACPI_MADT_ISO_TRIGGER_LEVEL then
        { root2 with
          irq_flags := Function.update root2.irq_flags irq
            ((root2.irq_flags irq ||| HY_INFO_IRQ_FLAG_LEVEL) % 256) }
      else root2
    { info with root := root3 }

/-- The `switch (entry->type)` of `acpi_parse_madt`. -/
def acpi_parse_madt_entry (h : AcpiH) (mem : Mem) (entry : Nat) (info : Info) : Info :=
  let type := read8 mem (entry + h.entry_type)
  if type = h.ACPI_MADT_TYPE_LAPIC then
    acpi_parse_madt_lapic (read_madt_lapic h mem entry) info
  else if type = h.ACPI_MADT_TYPE_IOAPIC then
    acpi_parse_madt_ioapic (read_madt_ioapic h mem entry) info
  else if type = h.ACPI_MADT_TYPE_ISO then
    acpi_parse_madt_iso h (read_madt_iso h mem entry) info
  else info

/-- The `while (size_left > 0)` loop of `acpi_parse_madt`; the first argument is
the fuel. -/
def acpi_parse_madt_loop (h : AcpiH) (mem : Mem) : Nat → Nat → Nat → Info → Outcome
  | 0, _, size_left, info => if size_left > 0 then .fuel else .done info
  | fuel + 1, entry, size_left, info =>
    if size_left > 0 then
      let length := read8 mem (entry + h.entry_length)
      acpi_parse_madt_loop h mem fuel (wadd entry length) (wsub size_left length)
        (acpi_parse_madt_entry h mem entry info)
    else .done info

/-- The function `acpi_parse_madt`. -/
def acpi_parse_madt (h : AcpiH) (fuel : Nat) (mem : Mem) (madt : Nat) (info : Info) : Outcome :=
  let root1 : InfoRoot := { info.root with lapic_paddr := read32 mem (madt + h.madt_lapic_paddr) }
  let root2 : InfoRoot :=
    if read32 mem (madt + h.madt_flags) &&& h.ACPI_MADT_PCAT_COMPAT ≠ 0 then
      { root1 with flags := (root1.flags ||| HY_INFO_FLAG_PCAT_COMPAT) % 4294967296 }
    else root1
  let entry := wadd madt h.sizeof_madt
  let size_left := wsub (read32 mem (madt + h.sdt_length)) h.sizeof_madt
  acpi_parse_madt_loop h mem fuel entry size_left { info with root := root2 }

/-- The function `acpi_parse_table`. -/
def acpi_parse_table (h : AcpiH) (fuel : Nat) (mem : Mem) (table : Nat) (info : Info) : Outcome :=
  if !acpi_check mem table (read32 mem (table + h.sdt_length)) then .done info
  else if memcmp mem (table + h.sdt_signature) (cstr "MADT") 4 ≠ 0
      ∨ memcmp mem (table + h.sdt_signature) (cstr "APIC") 4 ≠ 0 then
    acpi_parse_madt h fuel mem table info
  else .done info

/-- The `for` loop of `acpi_parse_xsdt`: `n` iterations are left, `i` is the loop
counter. -/
def acpi_parse_xsdt_loop (h : AcpiH) (fuel : Nat) (mem : Mem) (entry : Nat) :
    Nat → Nat → Info → Outcome
  | 0, _, info => .done info
  | n + 1, i, info =>
    (acpi_parse_table h fuel mem (read64 mem (entry + 8 * i)) info).andThen
      (acpi_parse_xsdt_loop h fuel mem entry n (i + 1))

/-- The function `acpi_parse_xsdt`. -/
def acpi_parse_xsdt (h : AcpiH) (fuel : Nat) (mem : Mem) (xsdt : Nat) (info : Info) : Outcome :=
  if !acpi_check mem xsdt (read32 mem (xsdt + h.sdt_length)) then
    SCREEN_PANIC "ACPI: XSDT is invalid." info
  else
    let count := wsub (read32 mem (xsdt + h.sdt_length)) h.sizeof_sdt_header / 8
    let entry := wadd xsdt h.sizeof_sdt_header
    acpi_parse_xsdt_loop h fuel mem entry count 0 info

/-- The `for` loop of `acpi_parse_rsdt`: `n` iterations are left, `i` is the loop
counter. -/
def acpi_parse_rsdt_loop (h : AcpiH) (fuel : Nat) (mem : Mem) (entry : Nat) :
    Nat → Nat → Info → Outcome
  | 0, _, info => .done info
  | n + 1, i, info =>
    (acpi_parse_table h fuel mem (read32 mem (entry + 4 * i)) info).andThen
      (acpi_parse_rsdt_loop h fuel mem entry n (i + 1))

/-- The function `acpi_parse_rsdt`. -/
def acpi_parse_rsdt (h : AcpiH) (fuel : Nat) (mem : Mem) (rsdt : Nat) (info : Info) : Outcome :=
  if !acpi_check mem rsdt (read32 mem (rsdt + h.sdt_length)) then
    SCREEN_PANIC "ACPI: RSDT is invalid." info
  else
    let count := wsub (read32 mem (rsdt + h.sdt_length)) h.sizeof_sdt_header / 4
    let entry := wadd rsdt h.sizeof_sdt_header
    acpi_parse_rsdt_loop h fuel mem entry count 0 info

/-- The function `acpi_parse_rsdp`. -/
def acpi_parse_rsdp (h : AcpiH) (fuel : Nat) (mem : Mem) (rsdp : Nat) (info : Info) : Outcome :=
  if read8 mem (rsdp + h.rsdp_revision) > 0 then
    acpi_parse_xsdt h fuel mem (read64 mem (rsdp + h.rsdp_xsdt_addr)) info
  else
    acpi_parse_rsdt h fuel mem (read32 mem (rsdp + h.rsdp_rsdt_addr)) info

/-- The body of the `for` loop of `acpi_find_rsdp` at `address`: true when the
loop returns `address`, false when it takes one of the `continue`s. -/
def acpi_find_rsdp_accepts (h : AcpiH) (mem : Mem) (address : Nat) : Bool :=
  if memcmp mem address (cstr "RSD PTR ") 8 = 0 then false
  else if !acpi_check mem address 20 then false
  else if read8 mem (address + h.rsdp_revision) ≥ 1
      ∧ !acpi_check mem address (read32 mem (address + h.rsdp_length)) then false
  else true

/-- The `for` loop of `acpi_find_rsdp`; the first argument is the fuel, the last
one is `offset`.  The result is `none` when the fuel runs out. -/
def acpi_find_rsdp_loop (h : AcpiH) (mem : Mem) (begin length : Nat) : Nat → Nat → Option Nat
  | 0, offset => if offset < length then none else some 0
  | fuel + 1, offset =>
    if offset < length then
      let address := wadd begin offset
      if acpi_find_rsdp_accepts h mem address then some address
      else acpi_find_rsdp_loop h mem begin length fuel (wadd offset 16)
    else some 0

/-- The function `acpi_find_rsdp`; `none` when the fuel runs out. -/
def acpi_find_rsdp (h : AcpiH) (fuel : Nat) (mem : Mem) (begin length : Nat) : Option Nat :=
  let begin_aligned := wadd begin 15 &&& (WORD - 16)
  let length1 := wsub length (wsub begin_aligned begin)
  acpi_find_rsdp_loop h mem begin_aligned length1 fuel 0

/-- The store `info_root->rsdp_paddr = (uintptr_t) rsdp` of `acpi_parse`. -/
def Info.set_rsdp_paddr (info : Info) (rsdp : Nat) : Info :=
  { info with root := { info.root with rsdp_paddr := rsdp } }

/-- The function `acpi_parse`. -/
def acpi_parse (h : AcpiH) (fuel : Nat) (mem : Mem) (info : Info) : Outcome :=
  match acpi_find_rsdp h fuel mem 0xE0000 (0x100000 - 0xE0000) with
  | none => .fuel
  | some rsdp =>
    if rsdp = 0 then SCREEN_PANIC "ACPI: Could not find RSDP." info
    else
      (acpi_parse_rsdp h fuel mem rsdp (info.set_rsdp_paddr rsdp)).andThen fun info2 =>
        if info2.root.cpu_count = 0 then SCREEN_PANIC "No CPU information in ACPI tables." info2
        else if info2.root.ioapic_count = 0 then
          SCREEN_PANIC "No I/O APIC found in ACPI tables." info2
        else .done info2

/-! ## Reference definitions for the walk over the root table -/

/-- The tables `ts` handed to `acpi_parse_table` one after the other, each once,
in the order of the list; a table is reached only when the calls before it have
returned. -/
def parse_tables_in_order (h : AcpiH) (fuel : Nat) (mem : Mem) : List Nat → Info → Outcome
  | [], info => .done info
  | t :: ts, info =>
    (acpi_parse_table h fuel mem t info).andThen (parse_tables_in_order h fuel mem ts)

/-- The root table the root pointer at `rsdp` selects: the table at `xsdt_addr`
when the revision is at least 1, the table at `rsdt_addr` for revision 0. -/
def selected_root (h : AcpiH) (mem : Mem) (rsdp : Nat) : Nat :=
  if read8 mem (rsdp + h.rsdp_revision) ≥ 1 then read64 mem (rsdp + h.rsdp_xsdt_addr)
  else read32 mem (rsdp + h.rsdp_rsdt_addr)

/-- The pointers that follow the header of the selected root table: 64-bit
pointers with stride 8 when the revision is at least 1, 32-bit pointers with
stride 4 for revision 0. -/
def selected_root_entries (h : AcpiH) (mem : Mem) (rsdp : Nat) : List Nat :=
  let root := selected_root h mem rsdp
  let size := wsub (read32 mem (root + h.sdt_length)) h.sizeof_sdt_header
  if read8 mem (rsdp + h.rsdp_revision) ≥ 1 then
    (List.range (size / 8)).map fun i => read64 mem (wadd root h.sizeof_sdt_header + 8 * i)
  else
    (List.range (size / 4)).map fun i => read32 mem (wadd root h.sizeof_sdt_header + 4 * i)

/-- The addresses of the entries that the loop of `acpi_parse_madt` decodes,
in order, as far as the fuel reaches. -/
def acpi_parse_madt_visits (h : AcpiH) (mem : Mem) : Nat → Nat → Nat → List Nat
  | 0, _, _ => []
  | fuel + 1, entry, size_left =>
    if size_left > 0 then
      let length := read8 mem (entry + h.entry_length)
      entry :: acpi_parse_madt_visits h mem fuel (wadd entry length) (wsub size_left length)
    else []

/-- The table at `table` gives `acpi_parse_table` no processor-local-controller
record to handle: its checksum is invalid, or none of the entries the loop of
`acpi_parse_madt` decodes has the type `ACPI_MADT_TYPE_LAPIC`. -/
def table_has_no_lapic (h : AcpiH) (fuel : Nat) (mem : Mem) (table : Nat) : Bool :=
  !acpi_check mem table (read32 mem (table + h.sdt_length))
  || (acpi_parse_madt_visits h mem fuel (wadd table h.sizeof_madt)
        (wsub (read32 mem (table + h.sdt_length)) h.sizeof_madt)).all
      fun e => decide (read8 mem (e + h.entry_type) ≠ h.ACPI_MADT_TYPE_LAPIC)

/-- The info tables of an outcome that returned. -/
def Outcome.returned (o : Outcome) : Option Info :=
  match o with
  | .done info => some info
  | _ => none

/-- The message of an outcome that stopped in `SCREEN_PANIC`. -/
def Outcome.message (o : Outcome) : Option String :=
  match o with
  | .panic msg _ => some msg
  | _ => none

/-! ## Concrete memory images -/

/-- A revision 0 root pointer: the signature `"RSD PTR "`, the checksum byte that
makes the 20 bytes sum to 0 modulo 256, and zeros. -/
def rsdp_rev0_bytes : List Nat :=
  [0x52, 0x53, 0x44, 0x20, 0x50, 0x54, 0x52, 0x20, 225, 0, 0, 0, 0, 0, 0, 0, 0, 0, 0, 0]

/-- Memory with the root pointer `rsdp_rev0_bytes` at `0xE0000` and the byte 1
everywhere else. -/
def mem_rsdp_at_E0000 : Mem := memOf 1 0xE0000 rsdp_rev0_bytes

/-- Memory that is zero everywhere. -/
def mem_zero : Mem := fun _ => 0

/-- The 36 bytes of an `acpi_sdt_header_t` with the given signature, length and
checksum byte; revision 1, the other fields zero. -/
def sdt_header_bytes (signature : List Nat) (length checksum : Nat) : List Nat :=
  signature ++ [length % 256, length / 256 % 256, length / 65536 % 256, length / 16777216 % 256]
    ++ [1, checksum] ++ List.replicate 26 0

/-- A revision 0 root pointer whose `rsdt_addr` is `0xE0080`. -/
def img_rsdp_rev0 : List Nat :=
  [0x52, 0x53, 0x44, 0x20, 0x50, 0x54, 0x52, 0x20, 83, 0, 0, 0, 0, 0, 0, 0, 0x80, 0x00, 0x0E, 0x00]

/-- A revision 2 root pointer of length 36 whose `xsdt_addr` is `0xE00C0`. -/
def img_rsdp_rev2 : List Nat :=
  [0x52, 0x53, 0x44, 0x20, 0x50, 0x54, 0x52, 0x20, 81, 0, 0, 0, 0, 0, 0, 2, 0x80, 0x00, 0x0E, 0x00,
   36, 0, 0, 0, 0xC0, 0x00, 0x0E, 0x00, 0, 0, 0, 0, 14, 0, 0, 0]

/-- A root table `"RSDT"` with the three 32-bit entries `0xE0100`, `0xE0140`,
`0xE0180`. -/
def img_rsdt : List Nat :=
  sdt_header_bytes [0x52, 0x53, 0x44, 0x54] 48 165
    ++ [0x00, 0x01, 0x0E, 0x00, 0x40, 0x01, 0x0E, 0x00, 0x80, 0x01, 0x0E, 0x00]

/-- A root table `"XSDT"` with the three 64-bit entries `0xE0100`, `0xE0140`,
`0xE0180`. -/
def img_xsdt : List Nat :=
  sdt_header_bytes [0x58, 0x53, 0x44, 0x54] 60 147
    ++ [0x00, 0x01, 0x0E, 0x00, 0, 0, 0, 0, 0x40, 0x01, 0x0E, 0x00, 0, 0, 0, 0,
        0x80, 0x01, 0x0E, 0x00, 0, 0, 0, 0]

/-- A table with the signature `"FACP"` and a valid checksum.  Read as a
multi-APIC table its body is the address `0xFEE00000`, the flags 1 and one entry
of type 0 and length 8 with the ids 7 and 3. -/
def img_facp : List Nat :=
  sdt_header_bytes [0x46, 0x41, 0x43, 0x50] 52 191
    ++ [0x00, 0x00, 0xE0, 0xFE, 1, 0, 0, 0] ++ [0, 8, 7, 3, 1, 0, 0, 0]

/-- A table with the signature `"HPET"` and an invalid checksum. -/
def img_hpet_bad : List Nat :=
  sdt_header_bytes [0x48, 0x50, 0x45, 0x54] 52 165
    ++ [0x00, 0x00, 0xE0, 0xFE, 1, 0, 0, 0] ++ [0, 8, 9, 5, 1, 0, 0, 0]

/-- A multi-APIC table (`"APIC"`, valid checksum): two processor-local-controller
entries (ids 0 and 1), one IO-controller entry and one override entry. -/
def img_apic : List Nat :=
  sdt_header_bytes [0x41, 0x50, 0x49, 0x43] 82 178
    ++ [0x00, 0x00, 0xE0, 0xFE, 1, 0, 0, 0]
    ++ [0, 8, 0, 0, 1, 0, 0, 0] ++ [0, 8, 1, 1, 1, 0, 0, 0]
    ++ [1, 12, 2, 0, 0x00, 0x00, 0xC0, 0xFE, 0, 0, 0, 0]
    ++ [2, 10, 1, 0, 2, 0, 0, 0, 15, 0]

/-- `bs` followed by zero bytes up to the length `n`. -/
def pad_to (n : Nat) (bs : List Nat) : List Nat := bs ++ List.replicate (n - bs.length) 0

/-- Memory holding, from `0xE0000` on: `img_rsdp_rev0` at `0xE0000`,
`img_rsdp_rev2` at `0xE0020`, `img_rsdt` at `0xE0080`, `img_xsdt` at `0xE00C0`,
`img_facp` at `0xE0100`, `img_hpet_bad` at `0xE0140` and `img_apic` at `0xE0180`;
zero elsewhere. -/
def mem_acpi : Mem :=
  memOf 0 0xE0000
    (pad_to 0x20 img_rsdp_rev0 ++ pad_to 0x60 img_rsdp_rev2 ++ pad_to 0x40 img_rsdt
      ++ pad_to 0x40 img_xsdt ++ pad_to 0x40 img_facp ++ pad_to 0x40 img_hpet_bad ++ img_apic)


/-- Twenty bytes that `acpi_find_rsdp` accepts as a root pointer of revision 0:
no signature, a valid checksum, `rsdt_addr` is `0xE0040`. -/
def img_root_pointer : List Nat :=
  [0, 0, 0, 0, 0, 0, 0, 0, 178, 0, 0, 0, 0, 0, 0, 0, 0x40, 0x00, 0x0E, 0x00]

/-- Thirty-six bytes that `acpi_find_rsdp` accepts as a root pointer of revision 2:
no signature, `length` 36, valid checksums over 20 and over 36 bytes. -/
def img_root_pointer_rev2 : List Nat :=
  [0, 0, 0, 0, 0, 0, 0, 0, 176, 0, 0, 0, 0, 0, 0, 2, 0x40, 0x00, 0x0E, 0x00,
   36, 0, 0, 0, 0x80, 0x00, 0x0E, 0x00, 0, 0, 0, 0, 78, 0, 0, 0]

/-- Memory holding `img_root_pointer_rev2` at `0xE0000`; zero elsewhere. -/
def mem_root_pointer_rev2 : Mem := memOf 0 0xE0000 img_root_pointer_rev2

/-- A root table `"RSDT"` with the single entry `0xE0080`. -/
def img_rsdt_single : List Nat :=
  sdt_header_bytes [0x52, 0x53, 0x44, 0x54] 40 12 ++ [0x80, 0x00, 0x0E, 0x00]

/-- A multi-APIC table (`"APIC"`, valid checksum) whose only entry is an
IO-controller entry. -/
def img_apic_no_cpu : List Nat :=
  sdt_header_bytes [0x41, 0x50, 0x49, 0x43] 56 254
    ++ [0x00, 0x00, 0xE0, 0xFE, 1, 0, 0, 0]
    ++ [1, 12, 2, 0, 0x00, 0x00, 0xC0, 0xFE, 0, 0, 0, 0]

/-- Memory holding `img_root_pointer` at `0xE0000`, `img_rsdt_single` at
`0xE0040` and `img_apic_no_cpu` at `0xE0080`; zero elsewhere. -/
def mem_no_cpu : Mem :=
  memOf 0 0xE0000 (pad_to 0x40 img_root_pointer ++ pad_to 0x40 img_rsdt_single ++ img_apic_no_cpu)

/-- The memory `mem_no_cpu` with the checksum byte of its root table changed. -/
def mem_bad_root : Mem := write8 mem_no_cpu (0xE0040 + 9) 13

/-! ## Runs of the record handlers -/

/-- The CPU record carries the flag `HY_INFO_CPU_FLAG_PRESENT`. -/
def cpu_present (c : InfoCpu) : Bool := c.flags &&& HY_INFO_CPU_FLAG_PRESENT != 0

/-- The handler `acpi_parse_madt_lapic` applied to the records `es`, first to
last. -/
def apply_lapic_records (es : List MadtLapic) (info : Info) : Info :=
  es.foldl (fun s e => acpi_parse_madt_lapic e s) info

/-- The handler `acpi_parse_madt_ioapic` applied to the records `es`, first to
last. -/
def apply_ioapic_records (es : List MadtIoapic) (info : Info) : Info :=
  es.foldl (fun s e => acpi_parse_madt_ioapic e s) info

/-- Zeroed info tables whose `ioapic_count` holds the largest 16-bit value. -/
def info_ioapic_count_max : Info :=
  { Info.zero with root := { Info.zero.root with ioapic_count := 65535 } }

/-! ## Reference definitions for the multi-APIC table -/

/-- The addresses of the first `n` records of a chain that starts at `entry`:
each record is followed by the one that lies its declared length further on
(address arithmetic as for `uintptr_t`). -/
def madt_chain (h : AcpiH) (mem : Mem) : Nat → Nat → List Nat
  | 0, _ => []
  | n + 1, entry =>
    entry :: madt_chain h mem n (wadd entry (read8 mem (entry + h.entry_length)))

/-- The declared lengths of the first `n` records of the chain at `entry`. -/
def madt_chain_lengths (h : AcpiH) (mem : Mem) (n entry : Nat) : List Nat :=
  (madt_chain h mem n entry).map fun e => read8 mem (e + h.entry_length)

/-- The info tables after the header of the multi-APIC table at `madt` has been
taken over: `lapic_paddr` is the value of the table, and the flag
`HY_INFO_FLAG_PCAT_COMPAT` is OR-ed in when the table has `ACPI_MADT_PCAT_COMPAT`. -/
def madt_header_applied (h : AcpiH) (mem : Mem) (madt : Nat) (info : Info) : Info :=
  { info with
    root :=
      { info.root with
        lapic_paddr := read32 mem (madt + h.madt_lapic_paddr)
        flags :=
          if read32 mem (madt + h.madt_flags) &&& h.ACPI_MADT_PCAT_COMPAT ≠ 0 then
            (info.root.flags ||| HY_INFO_FLAG_PCAT_COMPAT) % 4294967296
          else info.root.flags } }

/-- The record handlers applied to the records at the addresses `es`, first to
last; the handler is chosen by the type of the record and a record of any other
type is ignored (`acpi_parse_madt_entry`). -/
def apply_madt_records (h : AcpiH) (mem : Mem) (es : List Nat) (info : Info) : Info :=
  es.foldl (fun s e => acpi_parse_madt_entry h mem e s) info

/-- Every CPU slot whose PRESENT flag is set has an index below `cpu_count`. -/
def cpu_count_bounds_present (info : Info) : Prop :=
  ∀ i, cpu_present (info.cpu i) = true → i < info.root.cpu_count

/-- A multi-APIC table (`"APIC"`, valid checksum, length 82): two
processor-local-controller entries (ids 0 and 1), one IO-controller entry (base
interrupt 0) and one override entry with bus 0 (ISA), line 0, target interrupt 2
and the flags active-low and level. -/
def img_apic_isa : List Nat :=
  sdt_header_bytes [0x41, 0x50, 0x49, 0x43] 82 179
    ++ [0x00, 0x00, 0xE0, 0xFE, 1, 0, 0, 0]
    ++ [0, 8, 0, 0, 1, 0, 0, 0] ++ [0, 8, 1, 1, 1, 0, 0, 0]
    ++ [1, 12, 2, 0, 0x00, 0x00, 0xC0, 0xFE, 0, 0, 0, 0]
    ++ [2, 10, 0, 0, 2, 0, 0, 0, 15, 0]

/-- Memory holding `img_apic_isa` at `0xE0000`; zero elsewhere. -/
def mem_apic_isa : Mem := memOf 0 0xE0000 img_apic_isa

/-! ## `lapic.c` -/

/-- The declarations of `lapic.h` that the embedded part of `lapic.c` uses.  The
header is not among the sources, so the register indices and bit positions are
parameters of the embedding. -/
structure LapicH where
  LAPIC_REG_ID : Nat
  LAPIC_REG_ICR_LOW : Nat
  LAPIC_REG_ICR_HIGH : Nat
  LAPIC_REG_TIMER : Nat
  LAPIC_REG_TIMER_INIT : Nat
  LAPIC_REG_TIMER_DIV : Nat
  LAPIC_TIMER_MASK : Nat
  LAPIC_TIMER_TRIGGER : Nat

/-- Modelled from the spec: `lapic.h` is not among the sources; these are the
register offsets and bit positions of the local interrupt controller that the
spec's driver addresses (identification register, the two halves of the
interrupt command register, timer entry, initial count, divisor; mask bit 16 and
periodic bit 17), as the processor manuals fix them.  It is used for concrete
runs only; the general theorems hold for every `LapicH`. -/
def lapic_h : LapicH where
  LAPIC_REG_ID := 0x20
  LAPIC_REG_ICR_LOW := 0x300
  LAPIC_REG_ICR_HIGH := 0x310
  LAPIC_REG_TIMER := 0x320
  LAPIC_REG_TIMER_INIT := 0x380
  LAPIC_REG_TIMER_DIV := 0x3E0
  LAPIC_TIMER_MASK := 16
  LAPIC_TIMER_TRIGGER := 17

/-- The memory-mapped registers: the 32-bit word stored at each address, and the
record of the register writes done so far, oldest first, each as the pair of the
address and the value written. -/
structure Mmio where
  reg : Nat → Nat
  writes : List (Nat × Nat)

/-- Registers that read zero, nothing written yet. -/
def Mmio.zero : Mmio where
  reg := fun _ => 0
  writes := []

/-- The function `lapic_register_read`. -/
def lapic_register_read (info : Info) (index : Nat) (m : Mmio) : Nat :=
  m.reg (wadd info.root.lapic_paddr index) % 4294967296

/-- The function `lapic_register_write`: the old value of the register and the
registers after the store; `value` is converted to `uint32_t`. -/
def lapic_register_write (info : Info) (index value : Nat) (m : Mmio) : Nat × Mmio :=
  let reg := wadd info.root.lapic_paddr index
  let old := m.reg reg % 4294967296
  (old, { reg := Function.update m.reg reg (value % 4294967296),
          writes := m.writes ++ [(reg, value % 4294967296)] })

/-- The function `lapic_id`. -/
def lapic_id (L : LapicH) (info : Info) (m : Mmio) : Nat :=
  (lapic_register_read info L.LAPIC_REG_ID m >>> 24) % 256

/-- The function `lapic_ipi`. -/
def lapic_ipi (L : LapicH) (info : Info) (icr : Nat) (m : Mmio) : Mmio :=
  let m1 := (lapic_register_write info L.LAPIC_REG_ICR_HIGH (icr >>> 32) m).2
  (lapic_register_write info L.LAPIC_REG_ICR_LOW icr m1).2

/-- The function `lapic_timer_update`; `init_count` is converted to `uint32_t`,
`vector` to `uint8_t`. -/
def lapic_timer_update (L : LapicH) (info : Info) (init_count vector : Nat)
    (mask periodic : Bool) (m : Mmio) : Mmio :=
  let lvt := (vector % 256 ||| (mask.toNat <<< L.LAPIC_TIMER_MASK)
    ||| (periodic.toNat <<< L.LAPIC_TIMER_TRIGGER)) % 4294967296
  let m1 := (lapic_register_write info L.LAPIC_REG_TIMER_DIV 0xB m).2
  let m2 := (lapic_register_write info L.LAPIC_REG_TIMER lvt m1).2
  (lapic_register_write info L.LAPIC_REG_TIMER_INIT (init_count % 4294967296) m2).2

/-- The tick count `ticks` that `lapic_timer_wait` computes in `uint64_t`. -/
def lapic_timer_wait_ticks (L : LapicH) (info : Info) (time : Nat) (m : Mmio) : Nat :=
  ((info.cpu (lapic_id L info m)).lapic_timer_freq % 4294967296 * (time % WORD)) % WORD / 1000000

/-- The function `lapic_timer_wait` up to the point where the timer is armed:
the tick count is computed and passed to `lapic_timer_update`.  The saving and
restoring of the interrupt gate and the external worker that waits for the
interrupt are not part of the embedding. -/
def lapic_timer_wait (L : LapicH) (info : Info) (time : Nat) (m : Mmio) : Mmio :=
  let vector := 0x40
  let ticks := lapic_timer_wait_ticks L info time m
  lapic_timer_update L info ticks vector false false m

/-- Zeroed info tables in which the CPU record 0 has the timer frequency `freq`. -/
def info_with_freq (freq : Nat) : Info :=
  { Info.zero with
    cpu := Function.update Info.zero.cpu 0 { Info.zero.cpu 0 with lapic_timer_freq := freq } }

/-! ## `main.c`: the entry barrier -/

/-- The statements of `main_bsp` and `main_ap`, as far as the shared flag
`main_entry_barrier` and the field `info_root->free_paddr` are concerned. -/
inductive Stmt where
  /-- A statement that leaves `main_entry_barrier` and `free_paddr` alone: a call
  of another function of the loader, or a store to other data. -/
  | other (text : String)
  /-- The store `info_root->free_paddr = (heap_top + 0xFFF) & ~0xFFF`. -/
  | set_free_paddr
  /-- The store `main_entry_barrier = 0`. -/
  | lower_barrier
  /-- The loop `while (main_entry_barrier == 1);`. -/
  | wait_barrier
  /-- The call `kernel_enter_bsp()`. -/
  | kernel_enter_bsp
  /-- The call `kernel_enter_ap()`. -/
  | kernel_enter_ap
  deriving DecidableEq

/-- The statements of `main_bsp`, in program order. -/
def main_bsp : List Stmt :=
  [.other "screen_write", .other "screen_write", .other "screen_write",
   .other "idt_load", .other "idt_setup_loader",
   .other "info_init", .other "multiboot_parse",
   .other "heap_init",
   .other "acpi_parse", .other "ioapic_analyze",
   .other "kernel_find", .other "kernel_check", .other "elf64_load", .other "kernel_analyze",
   .other "lapic_detect", .other "lapic_setup", .other "ioapic_setup_loader", .other "pic_setup",
   .other "lapic_timer_calibrate",
   .other "info_cpu[lapic_id()].flags |= HY_INFO_CPU_FLAG_BSP", .other "smp_setup",
   .other "idt_setup_kernel", .other "ioapic_setup_kernel",
   .other "syscall_init",
   .other "kernel_map_info", .other "kernel_map_stack", .other "kernel_map_idt",
   .other "kernel_map_gdt",
   .set_free_paddr,
   .lower_barrier, .kernel_enter_bsp]

/-- The statements of `main_ap`, in program order. -/
def main_ap : List Stmt :=
  [.other "idt_load",
   .other "lapic_setup", .other "lapic_timer_calibrate",
   .other "kernel_map_stack",
   .other "syscall_init",
   .other "++smp_ready_count",
   .wait_barrier, .kernel_enter_ap]

/-- The state of the boot: the shared flag, whether `free_paddr` has been
stored, the number of statements of `main_bsp` the first core has completed and,
for each additional core, the number of statements of `main_ap` it has
completed. -/
structure Boot where
  main_entry_barrier : Nat
  free_paddr_set : Bool
  bsp_pc : Nat
  ap_pc : Nat → Nat

/-- The state before any core has run: `main_entry_barrier = 1`. -/
def Boot.init : Boot where
  main_entry_barrier := 1
  free_paddr_set := false
  bsp_pc := 0
  ap_pc := fun _ => 0

/-- One step of the first core: it completes its next statement. -/
def bsp_step (s : Boot) : Boot :=
  match main_bsp.get? s.bsp_pc with
  | none => s
  | some .set_free_paddr => { s with free_paddr_set := true, bsp_pc := s.bsp_pc + 1 }
  | some .lower_barrier => { s with main_entry_barrier := 0, bsp_pc := s.bsp_pc + 1 }
  | some _ => { s with bsp_pc := s.bsp_pc + 1 }

/-- One step of the additional core `c`: it completes its next statement; in the
loop `while (main_entry_barrier == 1);` it reads the flag and stays in the loop
while the flag is 1. -/
def ap_step (c : Nat) (s : Boot) : Boot :=
  match main_ap.get? (s.ap_pc c) with
  | none => s
  | some .wait_barrier =>
    if s.main_entry_barrier = 1 then s
    else { s with ap_pc := Function.update s.ap_pc c (s.ap_pc c + 1) }
  | some _ => { s with ap_pc := Function.update s.ap_pc c (s.ap_pc c + 1) }

/-- A run under a schedule: `none` lets the first core take a step, `some c` the
additional core `c`; the steps of the cores interleave on the shared state. -/
def boot_run (schedule : List (Option Nat)) (s : Boot) : Boot :=
  schedule.foldl (fun s who => match who with
    | none => bsp_step s
    | some c => ap_step c s) s

/-- The additional core `c` has left the loop on the flag: its next statement is
`kernel_enter_ap()`, or it has completed that call. -/
def ap_at_kernel_enter (s : Boot) (c : Nat) : Bool :=
  decide (main_ap.indexOf Stmt.kernel_enter_ap ≤ s.ap_pc c)

/-- What holds in every state of a run: the flag is 1 or 0, it is 0 only when the
first core has completed the store that lowers it, by then `free_paddr` has
been stored, and an additional core is past the loop only when the flag is 0. -/
def BarrierInv (s : Boot) : Prop :=
  (s.main_entry_barrier = 1 ∨ s.main_entry_barrier = 0)
  ∧ (s.main_entry_barrier = 0 → 30 ≤ s.bsp_pc)
  ∧ (29 ≤ s.bsp_pc → s.free_paddr_set = true)
  ∧ (30 ≤ s.bsp_pc → s.main_entry_barrier = 0)
  ∧ ∀ c, 7 ≤ s.ap_pc c → s.main_entry_barrier = 0

/-! ## Layout of the info tables (`hydrogen.h`) -/

/-- The address `HY_INFO_ROOT`. -/
def HY_INFO_ROOT : Nat := 0x10B000

/-- The address `HY_INFO_CPU`. -/
def HY_INFO_CPU : Nat := 0x10C000

/-- The address `HY_INFO_IOAPIC`. -/
def HY_INFO_IOAPIC : Nat := 0x10D000

/-- The address `HY_INFO_MMAP`. -/
def HY_INFO_MMAP : Nat := 0x10E000

/-- The address `HY_INFO_MODULE`. -/
def HY_INFO_MODULE : Nat := 0x10F000

/-- The address `HY_INFO_STRING`. -/
def HY_INFO_STRING : Nat := 0x110000

/-- The size of the packed structure `hy_info_root_t`: two 32-bit fields, six
64-bit fields, `irq_gsi[16]` of 32 bits, `irq_flags[16]` of 8 bits and five
16-bit counts. -/
def sizeof_hy_info_root : Nat := 2 * 4 + 6 * 8 + 16 * 4 + 16 * 1 + 5 * 2

/-- The size of the packed structure `hy_info_cpu_t`: `apic_id`, `acpi_id`,
`flags` (16 bit) and `lapic_timer_freq` (32 bit). -/
def sizeof_hy_info_cpu : Nat := 1 + 1 + 2 + 4

/-- Modelled from the spec: `info_cpu` is declared in `info.h`, which is not among
the sources; the CPU array lies at its fixed physical location, `HY_INFO_CPU`. -/
def info_cpu : Nat := HY_INFO_CPU

/-- The address `&info_cpu[entry->apic_id]` of the CPU record that
`acpi_parse_madt_lapic` writes. -/
def acpi_parse_madt_lapic_cpu_addr (entry : MadtLapic) : Nat :=
  wadd info_cpu (sizeof_hy_info_cpu * entry.apic_id)

/-- The number of slots of the CPU array, among those an 8-bit id can index, that
carry the flag `HY_INFO_CPU_FLAG_PRESENT`. -/
def present_count (info : Info) : Nat :=
  ((List.range 256).filter fun i => cpu_present (info.cpu i)).length

/-! ## `main.c`: the first free address -/

/-- The value of `(heap_top + 0xFFF) & ~0xFFF` that `main_bsp` stores to
`info_root->free_paddr`; `heap_top` (declared in `heap.h`, not among the sources)
is taken to be a `uintptr_t`. -/
def main_bsp_free_paddr (heap_top : Nat) : Nat :=
  wadd heap_top 0xFFF &&& (WORD - 0x1000)

theorem acpi_check_loop_eq (mem : Mem) (bytes : Nat) (n i sum : Nat) (hs : sum < 256) :
    acpi_check_loop mem bytes n i sum
      = (sum + ∑ j in Finset.range n, read8 mem (bytes + (i + j))) % 256 := by
  induction n generalizing i sum with
  | zero => simp [acpi_check_loop, Nat.mod_eq_of_lt hs]
  | succ n ih =>
    rw [acpi_check_loop, ih _ _ (Nat.mod_lt _ (by decide)), Finset.sum_range_succ']
    have h : ∀ j, bytes + (i + 1 + j) = bytes + (i + (j + 1)) := fun j => by omega
    simp only [h, Nat.add_zero]
    omega

theorem acpi_check_iff (mem : Mem) (table length : Nat) :
    acpi_check mem table length = true
      ↔ (∑ j in Finset.range length, read8 mem (table + j)) % 256 = 0 := by
  simp [acpi_check, acpi_check_loop_eq]

theorem read8_lt (mem : Mem) (a : Nat) : read8 mem a < 256 :=
  Nat.mod_lt _ (by decide)

theorem read8_write8_same (mem : Mem) (a v : Nat) : read8 (write8 mem a v) a = v % 256 := by
  simp [read8, write8]

theorem read8_write8_other (mem : Mem) (a v x : Nat) (h : x ≠ a) :
    read8 (write8 mem a v) x = read8 mem x := by
  simp [read8, write8, h]

/-! ## Claims about `acpi_check` -/

/-- C1: `acpi_check(table, length)` returns true exactly when the sum of the
first `length` bytes, each taken as an unsigned 8-bit value, is congruent to 0
modulo 256; for `length = 0` it returns true. -/
theorem acpi_check_spec (mem : Mem) (table length : Nat) :
    (acpi_check mem table length = true
      ↔ (∑ j in Finset.range length, read8 mem (table + j)) % 256 = 0)
    ∧ acpi_check mem table 0 = true := by
  refine ⟨acpi_check_iff mem table length, ?_⟩
  simp [acpi_check, acpi_check_loop]

/-- C2: if `acpi_check` accepts a table of `length` bytes, then replacing the
byte at any index `i < length` by a different 8-bit value gives a table that
`acpi_check` rejects. -/
theorem acpi_check_flip (mem : Mem) (table length i v : Nat)
    (hok : acpi_check mem table length = true) (hi : i < length)
    (hv : v < 256) (hne : v ≠ read8 mem (table + i)) :
    acpi_check (write8 mem (table + i) v) table length = false := by
  rw [Bool.eq_false_iff]
  intro hbad
  rw [acpi_check_iff] at hok hbad
  have hmem : i ∈ Finset.range length := Finset.mem_range.mpr hi
  rw [← Finset.add_sum_erase _ _ hmem] at hok hbad
  have hrest : ∑ j in (Finset.range length).erase i, read8 (write8 mem (table + i) v) (table + j)
      = ∑ j in (Finset.range length).erase i, read8 mem (table + j) := by
    apply Finset.sum_congr rfl
    intro j hj
    apply read8_write8_other
    have : j ≠ i := Finset.ne_of_mem_erase hj
    omega
  rw [hrest, read8_write8_same, Nat.mod_eq_of_lt hv] at hbad
  have hold := read8_lt mem (table + i)
  omega

theorem acpi_check_flip_witness :
    acpi_check (memOf 0 100 [1, 255, 7]) 100 2 = true
    ∧ acpi_check (write8 (memOf 0 100 [1, 255, 7]) (100 + 1) 3) 100 2 = false :=
  ⟨by decide, acpi_check_flip (memOf 0 100 [1, 255, 7]) 100 2 1 3 (by decide) (by decide)
    (by decide) (by decide)⟩


/-! ## Lemmas about `acpi_find_rsdp` -/

theorem WORD_eq : WORD = 18446744073709551616 := by decide

theorem land_align16 (x : Nat) (hx : x < WORD) : x &&& (WORD - 16) = x - x % 16 := by
  have h1 : WORD - 16 = (2 ^ 60 - 1) <<< 4 := by decide
  have h2 : x - x % 16 = (x >>> 4) <<< 4 := by
    rw [Nat.shiftRight_eq_div_pow, Nat.shiftLeft_eq]
    omega
  rw [h1, h2]
  apply Nat.eq_of_testBit_eq
  intro i
  simp only [Nat.testBit_and, Nat.testBit_shiftLeft, Nat.testBit_shiftRight,
    Nat.testBit_two_pow_sub_one]
  by_cases hi : 4 ≤ i
  · by_cases hj : i - 4 < 60
    · simp [hi, hj]
    · have : x < 2 ^ i := lt_of_lt_of_le hx (by
        unfold WORD; exact Nat.pow_le_pow_right (by decide) (by omega))
      have h4 : 4 + (i - 4) = i := by omega
      simp [hi, hj, Nat.testBit_lt_two_pow this, h4]
  · simp [hi]

/-- What the loop body of `acpi_find_rsdp` has checked when it returns. -/
theorem acpi_find_rsdp_accepts_iff (h : AcpiH) (mem : Mem) (a : Nat) :
    acpi_find_rsdp_accepts h mem a = true
      ↔ memcmp mem a (cstr "RSD PTR ") 8 ≠ 0
        ∧ acpi_check mem a 20 = true
        ∧ (read8 mem (a + h.rsdp_revision) ≥ 1
            → acpi_check mem a (read32 mem (a + h.rsdp_length)) = true) := by
  unfold acpi_find_rsdp_accepts
  by_cases h1 : memcmp mem a (cstr "RSD PTR ") 8 = 0
  · simp [h1]
  · by_cases h2 : acpi_check mem a 20 = true
    · by_cases h3 : read8 mem (a + h.rsdp_revision) ≥ 1
      · by_cases h4 : acpi_check mem a (read32 mem (a + h.rsdp_length)) = true
        · simp [h1, h2, h3, h4]
        · simp [h1, h2, h3, h4]
      · simp [h1, h2, h3]
    · simp [h1, h2]

/-- A non-null result of the loop is `begin + offset` for an offset the loop has
visited, and the loop body has accepted that address. -/
theorem acpi_find_rsdp_loop_some (h : AcpiH) (mem : Mem) (b len : Nat) (fuel off r : Nat)
    (hoff : off % 16 = 0)
    (hr : acpi_find_rsdp_loop h mem b len fuel off = some r) (hne : r ≠ 0) :
    ∃ o, o % 16 = 0 ∧ o < len ∧ r = wadd b o ∧ acpi_find_rsdp_accepts h mem r = true := by
  induction fuel generalizing off with
  | zero =>
    unfold acpi_find_rsdp_loop at hr
    split at hr
    · cases hr
    · cases hr; exact absurd rfl hne
  | succ fuel ih =>
    unfold acpi_find_rsdp_loop at hr
    split at hr
    · rename_i hlt
      simp only at hr
      split at hr
      · rename_i hacc
        cases hr
        exact ⟨off, hoff, hlt, rfl, hacc⟩
      · refine ih (wadd off 16) ?_ hr
        unfold wadd
        rw [WORD_eq]
        omega
    · cases hr; exact absurd rfl hne

/-- A non-null result of `acpi_find_rsdp` has been accepted by the loop body. -/
theorem acpi_find_rsdp_some_accepts (h : AcpiH) (fuel : Nat) (mem : Mem) (begin length r : Nat)
    (hr : acpi_find_rsdp h fuel mem begin length = some r) (hne : r ≠ 0) :
    acpi_find_rsdp_accepts h mem r = true := by
  obtain ⟨o, -, -, -, hacc⟩ := acpi_find_rsdp_loop_some h mem _ _ fuel 0 r rfl hr hne
  exact hacc

/-- The address `acpi_find_rsdp` returns never holds the signature: the loop
takes its first `continue` exactly when `memcmp` finds the signature. -/
theorem acpi_find_rsdp_some_not_signature (h : AcpiH) (fuel : Nat) (mem : Mem)
    (begin length r : Nat)
    (hr : acpi_find_rsdp h fuel mem begin length = some r) (hne : r ≠ 0) :
    memcmp mem r (cstr "RSD PTR ") 8 ≠ 0 :=
  ((acpi_find_rsdp_accepts_iff h mem r).mp
    (acpi_find_rsdp_some_accepts h fuel mem begin length r hr hne)).1

/-! ## Claims about `acpi_find_rsdp` -/

/-- C3 (the code differs): in `mem_rsdp_at_E0000` the 16-byte-aligned address
`0xE0000` of the region `(0xE0000, 16)` holds the signature `"RSD PTR "`, its
first 20 bytes pass the checksum and its revision is 0, yet `acpi_find_rsdp`
returns null instead of `0xE0000`. -/
theorem acpi_find_rsdp_misses_valid_rsdp :
    0xE0000 % 16 = 0
    ∧ memcmp mem_rsdp_at_E0000 0xE0000 (cstr "RSD PTR ") 8 = 0
    ∧ acpi_check mem_rsdp_at_E0000 0xE0000 20 = true
    ∧ read8 mem_rsdp_at_E0000 (0xE0000 + acpi_h.rsdp_revision) = 0
    ∧ acpi_find_rsdp acpi_h 2 mem_rsdp_at_E0000 0xE0000 16 = some 0 := by
  refine ⟨by decide, by decide, by decide, by decide, by decide⟩

/-- C4 (the code differs): no address of the all-zero memory holds the signature
`"RSD PTR "`, yet `acpi_find_rsdp` over the region `(0xE0000, 16)` returns the
non-null address `0xE0000`. -/
theorem acpi_find_rsdp_returns_without_signature :
    (∀ a, memcmp mem_zero a (cstr "RSD PTR ") 8 ≠ 0)
    ∧ acpi_find_rsdp acpi_h 2 mem_zero 0xE0000 16 = some 0xE0000 := by
  refine ⟨?_, by decide⟩
  intro a
  have hc : cstr "RSD PTR " = [82, 83, 68, 32, 80, 84, 82, 32] := by decide
  simp [memcmp, memcmp_loop, hc, read8, mem_zero]

/-- C5: whenever `acpi_find_rsdp` returns a non-null address, the first 20 bytes
at that address pass `acpi_check`, and if the revision field there is at least 1
then the first `rsdp->length` bytes pass `acpi_check` too; so a non-null
candidate with revision at least 1 whose full-length checksum is invalid is
never the result. -/
theorem acpi_find_rsdp_checksums (h : AcpiH) (fuel : Nat) (mem : Mem) (begin length r : Nat)
    (hr : acpi_find_rsdp h fuel mem begin length = some r) (hne : r ≠ 0) :
    acpi_check mem r 20 = true
    ∧ (read8 mem (r + h.rsdp_revision) ≥ 1
        → acpi_check mem r (read32 mem (r + h.rsdp_length)) = true)
    ∧ ∀ a, a ≠ 0 → read8 mem (a + h.rsdp_revision) ≥ 1 → acpi_check mem a 20 = true
        → acpi_check mem a (read32 mem (a + h.rsdp_length)) = false
        → acpi_find_rsdp h fuel mem begin length ≠ some a := by
  have hacc := (acpi_find_rsdp_accepts_iff h mem r).mp
    (acpi_find_rsdp_some_accepts h fuel mem begin length r hr hne)
  refine ⟨hacc.2.1, hacc.2.2, ?_⟩
  intro a ha hrev _ hfull hfind
  have hacc2 := (acpi_find_rsdp_accepts_iff h mem a).mp
    (acpi_find_rsdp_some_accepts h fuel mem begin length a hfind ha)
  rw [hacc2.2.2 hrev] at hfull
  cases hfull

theorem acpi_find_rsdp_checksums_witness :
    acpi_find_rsdp acpi_h 2 mem_root_pointer_rev2 0xE0000 16 = some 0xE0000
    ∧ read8 mem_root_pointer_rev2 (0xE0000 + acpi_h.rsdp_revision) = 2
    ∧ acpi_check mem_root_pointer_rev2 0xE0000 20 = true
    ∧ (read8 mem_root_pointer_rev2 (0xE0000 + acpi_h.rsdp_revision) ≥ 1
        → acpi_check mem_root_pointer_rev2 0xE0000
            (read32 mem_root_pointer_rev2 (0xE0000 + acpi_h.rsdp_length)) = true)
    ∧ ∀ a, a ≠ 0 → read8 mem_root_pointer_rev2 (a + acpi_h.rsdp_revision) ≥ 1
        → acpi_check mem_root_pointer_rev2 a 20 = true
        → acpi_check mem_root_pointer_rev2 a
            (read32 mem_root_pointer_rev2 (a + acpi_h.rsdp_length)) = false
        → acpi_find_rsdp acpi_h 2 mem_root_pointer_rev2 0xE0000 16 ≠ some a :=
  ⟨by decide, by decide,
    acpi_find_rsdp_checksums acpi_h 2 mem_root_pointer_rev2 0xE0000 16 0xE0000
      (by decide) (by decide)⟩

/-- C6: for a region `(begin, length)` whose length is at least the padding that
rounds `begin` up to a multiple of 16 and for which `begin + length` does not
overflow, every non-null address `acpi_find_rsdp` returns is a multiple of 16 and
lies in `[begin, begin + length)`; so an address that is not a multiple of 16 is
never returned. -/
theorem acpi_find_rsdp_aligned_in_region (h : AcpiH) (fuel : Nat) (mem : Mem)
    (begin length r : Nat)
    (hpad : (16 - begin % 16) % 16 ≤ length) (hov : begin + length ≤ WORD)
    (hr : acpi_find_rsdp h fuel mem begin length = some r) (hne : r ≠ 0) :
    r % 16 = 0 ∧ begin ≤ r ∧ r < begin + length
    ∧ ∀ a, a % 16 ≠ 0 → acpi_find_rsdp h fuel mem begin length ≠ some a := by
  have key : r % 16 = 0 ∧ begin ≤ r ∧ r < begin + length := by
    obtain ⟨o, ho16, holt, hro, -⟩ := acpi_find_rsdp_loop_some h mem _ _ fuel 0 r rfl hr hne
    have hlt : wadd begin 15 < WORD := Nat.mod_lt _ (by decide)
    rw [land_align16 _ hlt] at holt hro
    unfold wsub at holt
    unfold wadd at holt hro
    rw [WORD_eq] at holt hro hov
    omega
  refine ⟨key.1, key.2.1, key.2.2, ?_⟩
  intro a ha hfind
  rw [hr] at hfind
  cases hfind
  exact ha key.1

theorem acpi_find_rsdp_aligned_in_region_witness :
    0xE0000 % 16 = 0 ∧ 0xDFFF9 ≤ 0xE0000 ∧ 0xE0000 < 0xDFFF9 + 23
    ∧ ∀ a, a % 16 ≠ 0 → acpi_find_rsdp acpi_h 2 mem_zero 0xDFFF9 23 ≠ some a :=
  acpi_find_rsdp_aligned_in_region acpi_h 2 mem_zero 0xDFFF9 23 0xE0000
    (by decide) (by decide) (by decide) (by decide)

/-! ## Lemmas about the walk over the root table -/

theorem read16_lt (mem : Mem) (a : Nat) : read16 mem a < 65536 := by
  have h1 := read8_lt mem a
  have h2 := read8_lt mem (a + 1)
  unfold read16
  omega

theorem read32_lt (mem : Mem) (a : Nat) : read32 mem a < 4294967296 := by
  have h1 := read16_lt mem a
  have h2 := read16_lt mem (a + 2)
  unfold read32
  omega

theorem wsub_eq_sub (a b : Nat) (hba : b ≤ a) (ha : a < WORD) : wsub a b = a - b := by
  unfold wsub
  rw [WORD_eq] at *
  omega

theorem acpi_parse_rsdt_loop_eq (h : AcpiH) (fuel : Nat) (mem : Mem) (entry n i : Nat)
    (info : Info) :
    acpi_parse_rsdt_loop h fuel mem entry n i info
      = parse_tables_in_order h fuel mem
          ((List.range n).map fun j => read32 mem (entry + 4 * (i + j))) info := by
  induction n generalizing i info with
  | zero => rfl
  | succ n ih =>
    rw [acpi_parse_rsdt_loop, List.range_succ_eq_map, List.map_cons, List.map_map,
      parse_tables_in_order]
    congr 1
    funext info1
    rw [ih]
    congr 2
    funext j
    simp only [Function.comp, Nat.add_zero]
    congr 2
    omega

theorem acpi_parse_xsdt_loop_eq (h : AcpiH) (fuel : Nat) (mem : Mem) (entry n i : Nat)
    (info : Info) :
    acpi_parse_xsdt_loop h fuel mem entry n i info
      = parse_tables_in_order h fuel mem
          ((List.range n).map fun j => read64 mem (entry + 8 * (i + j))) info := by
  induction n generalizing i info with
  | zero => rfl
  | succ n ih =>
    rw [acpi_parse_xsdt_loop, List.range_succ_eq_map, List.map_cons, List.map_map,
      parse_tables_in_order]
    congr 1
    funext info1
    rw [ih]
    congr 2
    funext j
    simp only [Function.comp, Nat.add_zero]
    congr 2
    omega

/-- The function `acpi_parse_rsdp` in terms of the selected root table: a panic
when its checksum is invalid, else the walk over its entries. -/
theorem acpi_parse_rsdp_eq (h : AcpiH) (fuel : Nat) (mem : Mem) (rsdp : Nat) (info : Info) :
    acpi_parse_rsdp h fuel mem rsdp info
      = if acpi_check mem (selected_root h mem rsdp)
            (read32 mem (selected_root h mem rsdp + h.sdt_length)) = true then
          parse_tables_in_order h fuel mem (selected_root_entries h mem rsdp) info
        else if read8 mem (rsdp + h.rsdp_revision) ≥ 1 then .panic "ACPI: XSDT is invalid." info
        else .panic "ACPI: RSDT is invalid." info := by
  unfold acpi_parse_rsdp selected_root_entries selected_root
  by_cases hrev : read8 mem (rsdp + h.rsdp_revision) ≥ 1
  · have hrev1 : read8 mem (rsdp + h.rsdp_revision) > 0 := hrev
    simp only [hrev, hrev1, if_true, acpi_parse_xsdt]
    by_cases hck : acpi_check mem (read64 mem (rsdp + h.rsdp_xsdt_addr))
        (read32 mem (read64 mem (rsdp + h.rsdp_xsdt_addr) + h.sdt_length)) = true
    · simp [hck, acpi_parse_xsdt_loop_eq]
    · simp [hck, SCREEN_PANIC]
  · have hrev1 : ¬ read8 mem (rsdp + h.rsdp_revision) > 0 := hrev
    simp only [hrev, hrev1, if_false, acpi_parse_rsdt]
    by_cases hck : acpi_check mem (read32 mem (rsdp + h.rsdp_rsdt_addr))
        (read32 mem (read32 mem (rsdp + h.rsdp_rsdt_addr) + h.sdt_length)) = true
    · simp [hck, acpi_parse_rsdt_loop_eq]
    · simp [hck, SCREEN_PANIC]

/-! ## Claims about the root table -/

/-- C7: `acpi_parse_rsdp` dispatches on the revision field.  For revision 0 the
root table is the one at `rsdt_addr`, read as 32-bit pointers with stride 4; for
every revision of at least 1 it is the one at `xsdt_addr`, read as 64-bit
pointers with stride 8.  When the root table has a valid checksum and a declared
length `L` of at least the header size `H`, the tables handed to
`acpi_parse_table` are the `(L - H) / stride` pointers that follow the header,
each once and in ascending entry order. -/
theorem acpi_parse_rsdp_dispatch (h : AcpiH) (fuel : Nat) (mem : Mem) (rsdp : Nat) (info : Info) :
    (read8 mem (rsdp + h.rsdp_revision) = 0 →
      ∀ root L, root = read32 mem (rsdp + h.rsdp_rsdt_addr) →
        L = read32 mem (root + h.sdt_length) →
        acpi_check mem root L = true → h.sizeof_sdt_header ≤ L →
        acpi_parse_rsdp h fuel mem rsdp info
          = parse_tables_in_order h fuel mem
              ((List.range ((L - h.sizeof_sdt_header) / 4)).map
                fun i => read32 mem (wadd root h.sizeof_sdt_header + 4 * i)) info)
    ∧ (read8 mem (rsdp + h.rsdp_revision) ≥ 1 →
      ∀ root L, root = read64 mem (rsdp + h.rsdp_xsdt_addr) →
        L = read32 mem (root + h.sdt_length) →
        acpi_check mem root L = true → h.sizeof_sdt_header ≤ L →
        acpi_parse_rsdp h fuel mem rsdp info
          = parse_tables_in_order h fuel mem
              ((List.range ((L - h.sizeof_sdt_header) / 8)).map
                fun i => read64 mem (wadd root h.sizeof_sdt_header + 8 * i)) info) := by
  have hL : ∀ a, read32 mem a < WORD := fun a =>
    lt_trans (read32_lt mem a) (by rw [WORD_eq]; decide)
  constructor
  · intro hrev root L hroot hlen hck hle
    subst hroot hlen
    have hrev0 : ¬ read8 mem (rsdp + h.rsdp_revision) ≥ 1 := by omega
    rw [acpi_parse_rsdp_eq]
    simp only [selected_root, selected_root_entries, hrev0, if_false, hck, if_true]
    rw [wsub_eq_sub _ _ hle (hL _)]
  · intro hrev root L hroot hlen hck hle
    subst hroot hlen
    rw [acpi_parse_rsdp_eq]
    simp only [selected_root, selected_root_entries, hrev, if_true, hck]
    rw [wsub_eq_sub _ _ hle (hL _)]

set_option maxRecDepth 100000 in
theorem acpi_parse_rsdp_dispatch_witness :
    acpi_parse_rsdp acpi_h 8 mem_acpi 0xE0000 Info.zero
        = parse_tables_in_order acpi_h 8 mem_acpi
            ((List.range ((48 - acpi_h.sizeof_sdt_header) / 4)).map
              fun i => read32 mem_acpi (wadd 0xE0080 acpi_h.sizeof_sdt_header + 4 * i)) Info.zero
    ∧ acpi_parse_rsdp acpi_h 8 mem_acpi 0xE0020 Info.zero
        = parse_tables_in_order acpi_h 8 mem_acpi
            ((List.range ((60 - acpi_h.sizeof_sdt_header) / 8)).map
              fun i => read64 mem_acpi (wadd 0xE00C0 acpi_h.sizeof_sdt_header + 8 * i)) Info.zero :=
  ⟨(acpi_parse_rsdp_dispatch acpi_h 8 mem_acpi 0xE0000 Info.zero).1 (by decide)
      0xE0080 48 (by decide) (by decide) (by decide) (by decide),
   (acpi_parse_rsdp_dispatch acpi_h 8 mem_acpi 0xE0020 Info.zero).2 (by decide)
      0xE00C0 60 (by decide) (by decide) (by decide) (by decide)⟩

/-! ## Lemmas about `acpi_parse_table` and `acpi_parse` -/

/-- The signature test of `acpi_parse_table` holds for every table: no first
byte equals both `'M'` and `'A'`. -/
theorem memcmp_madt_or_apic (mem : Mem) (a : Nat) :
    memcmp mem a (cstr "MADT") 4 ≠ 0 ∨ memcmp mem a (cstr "APIC") 4 ≠ 0 := by
  have hm : cstr "MADT" = [77, 65, 68, 84] := by decide
  have ha : cstr "APIC" = [65, 80, 73, 67] := by decide
  rw [hm, ha]
  by_cases h1 : read8 mem (a + 0) = 77
  · right
    have h2 : ¬ read8 mem (a + 0) = 65 := by omega
    simp only [memcmp, memcmp_loop, List.getD_cons_zero, h2, if_false]
    omega
  · left
    simp only [memcmp, memcmp_loop, List.getD_cons_zero, h1, if_false]
    omega

/-- A table with a valid checksum is parsed as a multi-APIC table, whatever its
signature. -/
theorem acpi_parse_table_valid (h : AcpiH) (fuel : Nat) (mem : Mem) (table : Nat) (info : Info)
    (hck : acpi_check mem table (read32 mem (table + h.sdt_length)) = true) :
    acpi_parse_table h fuel mem table info = acpi_parse_madt h fuel mem table info := by
  unfold acpi_parse_table
  simp [hck, memcmp_madt_or_apic mem (table + h.sdt_signature)]

/-- A table with an invalid checksum is skipped. -/
theorem acpi_parse_table_invalid (h : AcpiH) (fuel : Nat) (mem : Mem) (table : Nat) (info : Info)
    (hck : acpi_check mem table (read32 mem (table + h.sdt_length)) = false) :
    acpi_parse_table h fuel mem table info = .done info := by
  unfold acpi_parse_table
  simp [hck]

theorem acpi_parse_madt_loop_no_panic (h : AcpiH) (mem : Mem) (fuel entry size_left : Nat)
    (info : Info) (msg : String) (s : Info) :
    acpi_parse_madt_loop h mem fuel entry size_left info ≠ .panic msg s := by
  induction fuel generalizing entry size_left info with
  | zero =>
    unfold acpi_parse_madt_loop
    split <;> simp
  | succ fuel ih =>
    unfold acpi_parse_madt_loop
    split
    · exact ih _ _ _
    · simp

theorem acpi_parse_table_no_panic (h : AcpiH) (fuel : Nat) (mem : Mem) (table : Nat)
    (info : Info) (msg : String) (s : Info) :
    acpi_parse_table h fuel mem table info ≠ .panic msg s := by
  unfold acpi_parse_table
  split
  · simp
  · split
    · exact acpi_parse_madt_loop_no_panic h mem _ _ _ _ msg s
    · simp

theorem parse_tables_in_order_no_panic (h : AcpiH) (fuel : Nat) (mem : Mem) (ts : List Nat)
    (info : Info) (msg : String) (s : Info) :
    parse_tables_in_order h fuel mem ts info ≠ .panic msg s := by
  induction ts generalizing info with
  | nil => simp [parse_tables_in_order]
  | cons t ts ih =>
    rw [parse_tables_in_order]
    cases ht : acpi_parse_table h fuel mem t info with
    | done info1 => exact ih info1
    | panic msg1 s1 => exact absurd ht (acpi_parse_table_no_panic h fuel mem t info msg1 s1)
    | fuel => simp [Outcome.andThen]

theorem acpi_parse_madt_entry_cpu_count (h : AcpiH) (mem : Mem) (entry : Nat) (info : Info)
    (hty : read8 mem (entry + h.entry_type) ≠ h.ACPI_MADT_TYPE_LAPIC) :
    (acpi_parse_madt_entry h mem entry info).root.cpu_count = info.root.cpu_count := by
  unfold acpi_parse_madt_entry
  simp only [hty, if_false]
  split
  · rfl
  · split
    · unfold acpi_parse_madt_iso
      split
      · rfl
      · simp only
        split <;> split <;> rfl
    · rfl

theorem acpi_parse_madt_loop_cpu_count (h : AcpiH) (mem : Mem) (fuel entry size_left : Nat)
    (info s : Info)
    (hv : ∀ e ∈ acpi_parse_madt_visits h mem fuel entry size_left,
      read8 mem (e + h.entry_type) ≠ h.ACPI_MADT_TYPE_LAPIC)
    (hd : acpi_parse_madt_loop h mem fuel entry size_left info = .done s) :
    s.root.cpu_count = info.root.cpu_count := by
  induction fuel generalizing entry size_left info with
  | zero =>
    unfold acpi_parse_madt_loop at hd
    split at hd
    · cases hd
    · cases hd; rfl
  | succ fuel ih =>
    unfold acpi_parse_madt_loop at hd
    unfold acpi_parse_madt_visits at hv
    split at hd
    · rename_i hpos
      simp only [hpos, if_true, List.mem_cons, forall_eq_or_imp] at hv
      rw [ih _ _ _ hv.2 hd, acpi_parse_madt_entry_cpu_count h mem entry info hv.1]
    · cases hd; rfl

theorem acpi_parse_table_cpu_count (h : AcpiH) (fuel : Nat) (mem : Mem) (table : Nat)
    (info s : Info) (hno : table_has_no_lapic h fuel mem table = true)
    (hd : acpi_parse_table h fuel mem table info = .done s) :
    s.root.cpu_count = info.root.cpu_count := by
  by_cases hck : acpi_check mem table (read32 mem (table + h.sdt_length)) = true
  · rw [acpi_parse_table_valid h fuel mem table info hck] at hd
    unfold table_has_no_lapic at hno
    simp only [hck, Bool.not_true, Bool.false_or, List.all_eq_true, decide_eq_true_eq] at hno
    unfold acpi_parse_madt at hd
    rw [acpi_parse_madt_loop_cpu_count h mem _ _ _ _ s hno hd]
    simp only
    split <;> rfl
  · rw [acpi_parse_table_invalid h fuel mem table info (by simpa using hck)] at hd
    cases hd; rfl

theorem parse_tables_in_order_cpu_count (h : AcpiH) (fuel : Nat) (mem : Mem) (ts : List Nat)
    (info s : Info) (hno : ∀ t ∈ ts, table_has_no_lapic h fuel mem t = true)
    (hd : parse_tables_in_order h fuel mem ts info = .done s) :
    s.root.cpu_count = info.root.cpu_count := by
  induction ts generalizing info with
  | nil =>
    simp only [parse_tables_in_order] at hd
    cases hd; rfl
  | cons t ts ih =>
    rw [parse_tables_in_order] at hd
    cases ht : acpi_parse_table h fuel mem t info with
    | done info1 =>
      rw [ht] at hd
      rw [ih info1 (fun t1 h1 => hno t1 (List.mem_cons_of_mem _ h1)) hd,
        acpi_parse_table_cpu_count h fuel mem t info info1 (hno t (List.mem_cons_self _ _)) ht]
    | panic msg1 s1 => rw [ht] at hd; cases hd
    | fuel => rw [ht] at hd; cases hd

theorem acpi_find_rsdp_loop_terminates (h : AcpiH) (mem : Mem) (b len fuel off : Nat)
    (hlen : len + 16 ≤ WORD) (hf : len ≤ off + 16 * fuel) :
    ∃ r, acpi_find_rsdp_loop h mem b len fuel off = some r := by
  induction fuel generalizing off with
  | zero =>
    unfold acpi_find_rsdp_loop
    rw [if_neg (by omega)]
    exact ⟨0, rfl⟩
  | succ fuel ih =>
    unfold acpi_find_rsdp_loop
    split
    · simp only
      split
      · exact ⟨_, rfl⟩
      · apply ih
        unfold wadd
        rw [WORD_eq] at *
        omega
    · exact ⟨0, rfl⟩

/-- The search of `acpi_parse` over the legacy BIOS range ends within 8192
iterations. -/
theorem acpi_find_rsdp_bios_terminates (h : AcpiH) (fuel : Nat) (mem : Mem) (hf : 8192 ≤ fuel) :
    ∃ r, acpi_find_rsdp h fuel mem 0xE0000 0x20000 = some r := by
  unfold acpi_find_rsdp
  have h1 : wadd 0xE0000 15 &&& (WORD - 16) = 0xE0000 := by decide
  have h2 : wsub 0x20000 (wsub 0xE0000 0xE0000) = 0x20000 := by decide
  simp only [h1, h2]
  apply acpi_find_rsdp_loop_terminates
  · rw [WORD_eq]; decide
  · omega

/-- The function `acpi_parse` once the search has returned a non-null root
pointer. -/
theorem acpi_parse_found (h : AcpiH) (fuel : Nat) (mem : Mem) (info : Info) (r : Nat)
    (hfind : acpi_find_rsdp h fuel mem 0xE0000 0x20000 = some r) (hne : r ≠ 0) :
    acpi_parse h fuel mem info
      = (acpi_parse_rsdp h fuel mem r (info.set_rsdp_paddr r)).andThen fun info2 =>
          if info2.root.cpu_count = 0 then .panic "No CPU information in ACPI tables." info2
          else if info2.root.ioapic_count = 0 then
            .panic "No I/O APIC found in ACPI tables." info2
          else .done info2 := by
  have hfind1 : acpi_find_rsdp h fuel mem 0xE0000 (0x100000 - 0xE0000) = some r := hfind
  unfold acpi_parse
  rw [hfind1]
  simp only [hne, if_false]
  rfl

theorem acpi_parse_rsdp_no_panic_of_valid (h : AcpiH) (fuel : Nat) (mem : Mem) (rsdp : Nat)
    (info : Info) (msg : String) (s : Info)
    (hck : acpi_check mem (selected_root h mem rsdp)
      (read32 mem (selected_root h mem rsdp + h.sdt_length)) = true) :
    acpi_parse_rsdp h fuel mem rsdp info ≠ .panic msg s := by
  rw [acpi_parse_rsdp_eq, if_pos hck]
  exact parse_tables_in_order_no_panic h fuel mem _ info msg s

theorem acpi_parse_rsdp_panic_of_invalid (h : AcpiH) (fuel : Nat) (mem : Mem) (rsdp : Nat)
    (info : Info)
    (hck : acpi_check mem (selected_root h mem rsdp)
      (read32 mem (selected_root h mem rsdp + h.sdt_length)) = false) :
    ∃ msg, acpi_parse_rsdp h fuel mem rsdp info = .panic msg info := by
  rw [acpi_parse_rsdp_eq, if_neg (by simp [hck])]
  split
  · exact ⟨_, rfl⟩
  · exact ⟨_, rfl⟩

theorem acpi_parse_rsdp_cpu_count (h : AcpiH) (fuel : Nat) (mem : Mem) (rsdp : Nat)
    (info s : Info)
    (hno : ∀ t ∈ selected_root_entries h mem rsdp, table_has_no_lapic h fuel mem t = true)
    (hd : acpi_parse_rsdp h fuel mem rsdp info = .done s) :
    s.root.cpu_count = info.root.cpu_count := by
  rw [acpi_parse_rsdp_eq] at hd
  split at hd
  · exact parse_tables_in_order_cpu_count h fuel mem _ info s hno hd
  · split at hd <;> cases hd

/-! ## Claims about `acpi_parse` and `acpi_parse_table` -/

/-- C8: `acpi_parse` stops in `SCREEN_PANIC` exactly when the search over the
legacy BIOS range `(0xE0000, 0x20000)` returns null, or the selected root table
fails `acpi_check` over its declared length, or the complete table walk returns
with `cpu_count = 0` or `ioapic_count = 0`; the search itself always ends.  When
the checksum of the root table is invalid, the info tables at the panic are the
initial ones with only `rsdp_paddr` stored.  When the info tables start with
`cpu_count = 0` and no table of the walk holds a processor-local-controller
record, `acpi_parse` never returns, and a walk that completes ends in the panic
`"No CPU information in ACPI tables."`. -/
theorem acpi_parse_panic_iff (h : AcpiH) (fuel : Nat) (mem : Mem) (info : Info) :
    (8192 ≤ fuel → ∃ r, acpi_find_rsdp h fuel mem 0xE0000 0x20000 = some r)
    ∧ ((∃ msg s, acpi_parse h fuel mem info = .panic msg s)
        ↔ acpi_find_rsdp h fuel mem 0xE0000 0x20000 = some 0
          ∨ (∃ r, acpi_find_rsdp h fuel mem 0xE0000 0x20000 = some r ∧ r ≠ 0
              ∧ acpi_check mem (selected_root h mem r)
                  (read32 mem (selected_root h mem r + h.sdt_length)) = false)
          ∨ (∃ r s, acpi_find_rsdp h fuel mem 0xE0000 0x20000 = some r ∧ r ≠ 0
              ∧ acpi_parse_rsdp h fuel mem r (info.set_rsdp_paddr r) = .done s
              ∧ (s.root.cpu_count = 0 ∨ s.root.ioapic_count = 0)))
    ∧ (∀ r, acpi_find_rsdp h fuel mem 0xE0000 0x20000 = some r → r ≠ 0 →
        acpi_check mem (selected_root h mem r)
          (read32 mem (selected_root h mem r + h.sdt_length)) = false →
        ∃ msg, acpi_parse h fuel mem info = .panic msg (info.set_rsdp_paddr r))
    ∧ (∀ r, acpi_find_rsdp h fuel mem 0xE0000 0x20000 = some r → r ≠ 0 →
        info.root.cpu_count = 0 →
        (∀ t ∈ selected_root_entries h mem r, table_has_no_lapic h fuel mem t = true) →
        (∀ s, acpi_parse h fuel mem info ≠ .done s)
        ∧ ∀ s, acpi_parse_rsdp h fuel mem r (info.set_rsdp_paddr r) = .done s →
            acpi_parse h fuel mem info = .panic "No CPU information in ACPI tables." s) := by
  refine ⟨acpi_find_rsdp_bios_terminates h fuel mem, ?_, ?_, ?_⟩
  · cases hfind : acpi_find_rsdp h fuel mem 0xE0000 0x20000 with
    | none =>
      have hfind1 : acpi_find_rsdp h fuel mem 0xE0000 (0x100000 - 0xE0000) = none := hfind
      have hp : acpi_parse h fuel mem info = .fuel := by
        unfold acpi_parse
        rw [hfind1]
      rw [hp]
      simp
    | some r =>
      by_cases hr : r = 0
      · subst hr
        have hfind1 : acpi_find_rsdp h fuel mem 0xE0000 (0x100000 - 0xE0000) = some 0 := hfind
        have hp : acpi_parse h fuel mem info = .panic "ACPI: Could not find RSDP." info := by
          unfold acpi_parse
          rw [hfind1]
          simp [SCREEN_PANIC]
        rw [hp]
        simp
      · rw [acpi_parse_found h fuel mem info r hfind hr]
        have hr0 : ¬ (some r : Option Nat) = some 0 := by simpa using hr
        simp only [hr0, false_or, Option.some.injEq, exists_and_left, exists_eq_left', hr,
          ne_eq, not_false_eq_true, true_and]
        by_cases hck : acpi_check mem (selected_root h mem r)
            (read32 mem (selected_root h mem r + h.sdt_length)) = true
        · cases hd : acpi_parse_rsdp h fuel mem r (info.set_rsdp_paddr r) with
          | done s =>
            simp only [Outcome.andThen, hck, Bool.true_eq_false, false_or, Outcome.done.injEq,
              exists_eq_left']
            by_cases h1 : s.root.cpu_count = 0
            · simp [h1]
            · by_cases h2 : s.root.ioapic_count = 0
              · simp [h1, h2]
              · simp [h1, h2]
          | panic msg1 s1 =>
            exact absurd hd (acpi_parse_rsdp_no_panic_of_valid h fuel mem r _ msg1 s1 hck)
          | fuel => simp [Outcome.andThen, hck]
        · have hck1 : acpi_check mem (selected_root h mem r)
              (read32 mem (selected_root h mem r + h.sdt_length)) = false := by simpa using hck
          obtain ⟨msg, hm⟩ := acpi_parse_rsdp_panic_of_invalid h fuel mem r
            (info.set_rsdp_paddr r) hck1
          rw [hm]
          simp [Outcome.andThen, hck1]
  · intro r hfind hr hck
    obtain ⟨msg, hm⟩ := acpi_parse_rsdp_panic_of_invalid h fuel mem r (info.set_rsdp_paddr r) hck
    rw [acpi_parse_found h fuel mem info r hfind hr, hm]
    exact ⟨msg, rfl⟩
  · intro r hfind hr hzero hno
    rw [acpi_parse_found h fuel mem info r hfind hr]
    have hcount : ∀ s, acpi_parse_rsdp h fuel mem r (info.set_rsdp_paddr r) = .done s →
        s.root.cpu_count = 0 := by
      intro s hd
      rw [acpi_parse_rsdp_cpu_count h fuel mem r _ s hno hd]
      exact hzero
    constructor
    · intro s
      cases hd : acpi_parse_rsdp h fuel mem r (info.set_rsdp_paddr r) with
      | done s1 => simp [Outcome.andThen, hcount s1 hd]
      | panic msg1 s1 => simp [Outcome.andThen]
      | fuel => simp [Outcome.andThen]
    · intro s hd
      rw [hd]
      simp [Outcome.andThen, hcount s hd]

set_option maxRecDepth 100000 in
theorem acpi_parse_panic_iff_witness :
    ((∀ s, acpi_parse acpi_h 8 mem_no_cpu Info.zero ≠ .done s)
      ∧ ∀ s, acpi_parse_rsdp acpi_h 8 mem_no_cpu 0xE0000 (Info.zero.set_rsdp_paddr 0xE0000)
            = .done s →
          acpi_parse acpi_h 8 mem_no_cpu Info.zero
            = .panic "No CPU information in ACPI tables." s)
    ∧ (∃ msg, acpi_parse acpi_h 8 mem_bad_root Info.zero
        = .panic msg (Info.zero.set_rsdp_paddr 0xE0000))
    ∧ (acpi_parse acpi_h 8 mem_no_cpu Info.zero).message
        = some "No CPU information in ACPI tables."
    ∧ (acpi_parse acpi_h 8 mem_bad_root Info.zero).message = some "ACPI: RSDT is invalid." :=
  ⟨(acpi_parse_panic_iff acpi_h 8 mem_no_cpu Info.zero).2.2.2 0xE0000 (by decide) (by decide)
      rfl (by decide),
   (acpi_parse_panic_iff acpi_h 8 mem_bad_root Info.zero).2.2.1 0xE0000 (by decide) (by decide)
      (by decide),
   by decide, by decide⟩

/-- C9: for a table whose bytes fail `acpi_check` over its declared length,
`acpi_parse_table` returns and leaves the info tables unchanged, and the loops
over the root table go on with the entries that remain. -/
theorem acpi_parse_table_skips_invalid (h : AcpiH) (fuel : Nat) (mem : Mem) (table : Nat)
    (info : Info) (hck : acpi_check mem table (read32 mem (table + h.sdt_length)) = false) :
    acpi_parse_table h fuel mem table info = .done info
    ∧ (∀ entry n i, read32 mem (entry + 4 * i) = table →
        acpi_parse_rsdt_loop h fuel mem entry (n + 1) i info
          = acpi_parse_rsdt_loop h fuel mem entry n (i + 1) info)
    ∧ (∀ entry n i, read64 mem (entry + 8 * i) = table →
        acpi_parse_xsdt_loop h fuel mem entry (n + 1) i info
          = acpi_parse_xsdt_loop h fuel mem entry n (i + 1) info) := by
  have hskip := acpi_parse_table_invalid h fuel mem table info hck
  refine ⟨hskip, ?_, ?_⟩
  · intro entry n i hi
    rw [acpi_parse_rsdt_loop, hi, hskip]
    rfl
  · intro entry n i hi
    rw [acpi_parse_xsdt_loop, hi, hskip]
    rfl

set_option maxRecDepth 100000 in
theorem acpi_parse_table_skips_invalid_witness :
    acpi_parse_table acpi_h 8 mem_acpi 0xE0140 Info.zero = .done Info.zero
    ∧ (∀ entry n i, read32 mem_acpi (entry + 4 * i) = 0xE0140 →
        acpi_parse_rsdt_loop acpi_h 8 mem_acpi entry (n + 1) i Info.zero
          = acpi_parse_rsdt_loop acpi_h 8 mem_acpi entry n (i + 1) Info.zero)
    ∧ (∀ entry n i, read64 mem_acpi (entry + 8 * i) = 0xE0140 →
        acpi_parse_xsdt_loop acpi_h 8 mem_acpi entry (n + 1) i Info.zero
          = acpi_parse_xsdt_loop acpi_h 8 mem_acpi entry n (i + 1) Info.zero) :=
  acpi_parse_table_skips_invalid acpi_h 8 mem_acpi 0xE0140 Info.zero (by decide)

set_option maxRecDepth 100000 in
/-- C10 (the code differs): the table at `0xE0100` of `mem_acpi` has a valid
checksum and the signature `"FACP"`, which is neither `"APIC"` nor `"MADT"`, yet
`acpi_parse_table` parses it as a multi-APIC table and changes the info tables:
starting from zeroed tables it returns with `cpu_count = 4`,
`cpu_count_active = 1` and `lapic_paddr = 0xFEE00000`. -/
theorem acpi_parse_table_parses_facp :
    acpi_check mem_acpi 0xE0100 (read32 mem_acpi (0xE0100 + acpi_h.sdt_length)) = true
    ∧ memcmp mem_acpi (0xE0100 + acpi_h.sdt_signature) (cstr "FACP") 4 = 0
    ∧ memcmp mem_acpi (0xE0100 + acpi_h.sdt_signature) (cstr "APIC") 4 ≠ 0
    ∧ memcmp mem_acpi (0xE0100 + acpi_h.sdt_signature) (cstr "MADT") 4 ≠ 0
    ∧ Info.zero.root.cpu_count = 0
    ∧ ((acpi_parse_table acpi_h 8 mem_acpi 0xE0100 Info.zero).returned.map
        fun s => s.root.cpu_count) = some 4
    ∧ ((acpi_parse_table acpi_h 8 mem_acpi 0xE0100 Info.zero).returned.map
        fun s => s.root.cpu_count_active) = some 1
    ∧ ((acpi_parse_table acpi_h 8 mem_acpi 0xE0100 Info.zero).returned.map
        fun s => s.root.lapic_paddr) = some 0xFEE00000 := by
  refine ⟨by decide, by decide, by decide, by decide, by decide, by decide, by decide, by decide⟩

/-! ## Processor-local-controller records -/

theorem acpi_parse_madt_lapic_cpu (e : MadtLapic) (info : Info) :
    (acpi_parse_madt_lapic e info).cpu
      = Function.update info.cpu e.apic_id
          { info.cpu e.apic_id with
            acpi_id := e.acpi_id, apic_id := e.apic_id, flags := HY_INFO_CPU_FLAG_PRESENT } := by
  unfold acpi_parse_madt_lapic
  simp only
  split <;> rfl

theorem acpi_parse_madt_lapic_cpu_count (e : MadtLapic) (info : Info) (hid : e.apic_id < 256) :
    (acpi_parse_madt_lapic e info).root.cpu_count = max info.root.cpu_count (e.apic_id + 1) := by
  have h1 : (e.apic_id + 1) % WORD = e.apic_id + 1 := by rw [WORD_eq]; omega
  unfold acpi_parse_madt_lapic
  simp only [h1]
  split
  · simp only
    omega
  · simp only
    omega

theorem acpi_parse_madt_lapic_cpu_count_active (e : MadtLapic) (info : Info) :
    (acpi_parse_madt_lapic e info).root.cpu_count_active
      = (info.root.cpu_count_active + 1) % 65536 := by
  unfold acpi_parse_madt_lapic
  simp only
  split <;> rfl

theorem apply_lapic_records_cons (e : MadtLapic) (es : List MadtLapic) (info : Info) :
    apply_lapic_records (e :: es) info = apply_lapic_records es (acpi_parse_madt_lapic e info) :=
  rfl

theorem apply_lapic_records_cpu_count (es : List MadtLapic) (info : Info)
    (hid : ∀ e ∈ es, e.apic_id < 256) :
    (apply_lapic_records es info).root.cpu_count
      = (es.map fun e => e.apic_id + 1).foldl max info.root.cpu_count := by
  induction es generalizing info with
  | nil => rfl
  | cons e es ih =>
    rw [apply_lapic_records_cons, ih _ (fun x hx => hid x (List.mem_cons_of_mem _ hx)),
      acpi_parse_madt_lapic_cpu_count e info (hid e (List.mem_cons_self _ _))]
    rfl

theorem foldl_max_succ {α : Type} (f : α → Nat) (es : List α) (m : Nat) :
    (es.map fun e => f e + 1).foldl max (m + 1) = (es.map f).foldl max m + 1 := by
  induction es generalizing m with
  | nil => rfl
  | cons e es ih =>
    simp only [List.map_cons, List.foldl_cons]
    rw [← ih]
    congr 1
    omega

theorem apply_lapic_records_cpu_count_active (es : List MadtLapic) (info : Info)
    (h0 : info.root.cpu_count_active < 65536) :
    (apply_lapic_records es info).root.cpu_count_active
      = (info.root.cpu_count_active + es.length) % 65536 := by
  induction es generalizing info with
  | nil => simp [apply_lapic_records, Nat.mod_eq_of_lt h0]
  | cons e es ih =>
    rw [apply_lapic_records_cons, ih _ (by
      rw [acpi_parse_madt_lapic_cpu_count_active]; omega),
      acpi_parse_madt_lapic_cpu_count_active]
    simp only [List.length_cons]
    omega

theorem apply_lapic_records_cpu_other (es : List MadtLapic) (info : Info) (i : Nat)
    (hi : ∀ e ∈ es, e.apic_id ≠ i) :
    (apply_lapic_records es info).cpu i = info.cpu i := by
  induction es generalizing info with
  | nil => rfl
  | cons e es ih =>
    rw [apply_lapic_records_cons, ih _ (fun x hx => hi x (List.mem_cons_of_mem _ hx)),
      acpi_parse_madt_lapic_cpu]
    exact Function.update_noteq (hi e (List.mem_cons_self _ _)).symm _ _

theorem apply_lapic_records_cpu_mem (es : List MadtLapic) (info : Info)
    (hnd : (es.map fun e => e.apic_id).Nodup) (e : MadtLapic) (he : e ∈ es) :
    (apply_lapic_records es info).cpu e.apic_id
      = { info.cpu e.apic_id with
          acpi_id := e.acpi_id, apic_id := e.apic_id, flags := HY_INFO_CPU_FLAG_PRESENT } := by
  induction es generalizing info with
  | nil => cases he
  | cons x es ih =>
    rw [List.map_cons, List.nodup_cons] at hnd
    rw [apply_lapic_records_cons]
    rcases List.mem_cons.mp he with hx | hx
    · subst hx
      rw [apply_lapic_records_cpu_other es _ e.apic_id, acpi_parse_madt_lapic_cpu,
        Function.update_same]
      intro y hy hyx
      exact hnd.1 (List.mem_map.mpr ⟨y, hy, hyx⟩)
    · rw [ih _ hnd.2 hx, acpi_parse_madt_lapic_cpu]
      have hne : e.apic_id ≠ x.apic_id := by
        intro heq
        exact hnd.1 (List.mem_map.mpr ⟨e, hx, heq⟩)
      rw [Function.update_noteq hne]

theorem nodup_length_le (l : List Nat) (n : Nat) (hnd : l.Nodup) (hlt : ∀ x ∈ l, x < n) :
    l.length ≤ n := by
  rw [← List.toFinset_card_of_nodup hnd, ← Finset.card_range n]
  apply Finset.card_le_card
  intro x hx
  exact Finset.mem_range.mpr (hlt x (List.mem_toFinset.mp hx))

/-- C11: from info tables with `cpu_count = 0`, `cpu_count_active = 0` and no CPU
slot marked present, `acpi_parse_madt_lapic` applied to `N ≥ 1` records with
pairwise distinct 8-bit apic ids, in any order, gives `cpu_count = max(id) + 1`
and `cpu_count_active = N`; exactly the slots indexed by those ids carry the
PRESENT flag, each with `apic_id` equal to its index and `acpi_id` equal to the
firmware id of its record. -/
theorem acpi_parse_madt_lapic_distinct (es : List MadtLapic) (info : Info)
    (hne : es ≠ []) (hid : ∀ e ∈ es, e.apic_id < 256)
    (hnd : (es.map fun e => e.apic_id).Nodup)
    (hcount : info.root.cpu_count = 0) (hactive : info.root.cpu_count_active = 0)
    (hfree : ∀ i, cpu_present (info.cpu i) = false) :
    (apply_lapic_records es info).root.cpu_count = (es.map fun e => e.apic_id).foldl max 0 + 1
    ∧ (apply_lapic_records es info).root.cpu_count_active = es.length
    ∧ (∀ i, cpu_present ((apply_lapic_records es info).cpu i) = true ↔ ∃ e ∈ es, e.apic_id = i)
    ∧ ∀ e ∈ es, ((apply_lapic_records es info).cpu e.apic_id).apic_id = e.apic_id
        ∧ ((apply_lapic_records es info).cpu e.apic_id).acpi_id = e.acpi_id := by
  refine ⟨?_, ?_, ?_, ?_⟩
  · rw [apply_lapic_records_cpu_count es info hid, hcount]
    cases es with
    | nil => exact absurd rfl hne
    | cons e es =>
      simp only [List.map_cons, List.foldl_cons]
      rw [show max 0 (e.apic_id + 1) = e.apic_id + 1 by omega,
        foldl_max_succ (fun e : MadtLapic => e.apic_id),
        show max 0 e.apic_id = e.apic_id by omega]
  · rw [apply_lapic_records_cpu_count_active es info (by omega), hactive]
    have hlen := nodup_length_le _ 256 hnd (by
      intro x hx
      obtain ⟨e, he, rfl⟩ := List.mem_map.mp hx
      exact hid e he)
    rw [List.length_map] at hlen
    omega
  · intro i
    constructor
    · intro hp
      by_contra hno
      rw [apply_lapic_records_cpu_other es info i (fun e he heq => hno ⟨e, he, heq⟩), hfree] at hp
      cases hp
    · rintro ⟨e, he, rfl⟩
      rw [apply_lapic_records_cpu_mem es info hnd e he]
      simp [cpu_present, HY_INFO_CPU_FLAG_PRESENT]
  · intro e he
    rw [apply_lapic_records_cpu_mem es info hnd e he]
    exact ⟨rfl, rfl⟩

theorem acpi_parse_madt_lapic_distinct_witness :
    (apply_lapic_records [⟨7, 2⟩, ⟨9, 0⟩, ⟨4, 5⟩] Info.zero).root.cpu_count
        = ([⟨7, 2⟩, ⟨9, 0⟩, ⟨4, 5⟩].map fun e : MadtLapic => e.apic_id).foldl max 0 + 1
    ∧ (apply_lapic_records [⟨7, 2⟩, ⟨9, 0⟩, ⟨4, 5⟩] Info.zero).root.cpu_count_active
        = [(⟨7, 2⟩ : MadtLapic), ⟨9, 0⟩, ⟨4, 5⟩].length
    ∧ (∀ i, cpu_present ((apply_lapic_records [⟨7, 2⟩, ⟨9, 0⟩, ⟨4, 5⟩] Info.zero).cpu i) = true
        ↔ ∃ e ∈ [(⟨7, 2⟩ : MadtLapic), ⟨9, 0⟩, ⟨4, 5⟩], e.apic_id = i)
    ∧ ∀ e ∈ [(⟨7, 2⟩ : MadtLapic), ⟨9, 0⟩, ⟨4, 5⟩],
        ((apply_lapic_records [⟨7, 2⟩, ⟨9, 0⟩, ⟨4, 5⟩] Info.zero).cpu e.apic_id).apic_id = e.apic_id
        ∧ ((apply_lapic_records [⟨7, 2⟩, ⟨9, 0⟩, ⟨4, 5⟩] Info.zero).cpu e.apic_id).acpi_id
            = e.acpi_id :=
  acpi_parse_madt_lapic_distinct [⟨7, 2⟩, ⟨9, 0⟩, ⟨4, 5⟩] Info.zero (by simp)
    (by decide) (by decide) rfl rfl (by intro i; simp [cpu_present, Info.zero])

/-! ## IO-controller and override records -/

theorem acpi_parse_madt_ioapic_eq (e : MadtIoapic) (info : Info) :
    acpi_parse_madt_ioapic e info
      = { info with
          root := { info.root with ioapic_count := (info.root.ioapic_count + 1) % 65536 }
          ioapic := Function.update info.ioapic info.root.ioapic_count
            { info.ioapic info.root.ioapic_count with
              apic_id := e.apic_id, mmio_paddr := e.mmio_addr, gsi_base := e.gsi_base } } :=
  rfl

theorem apply_ioapic_records_cons (e : MadtIoapic) (es : List MadtIoapic) (info : Info) :
    apply_ioapic_records (e :: es) info
      = apply_ioapic_records es (acpi_parse_madt_ioapic e info) :=
  rfl

/-- A run of IO-controller records that does not overflow the 16-bit count
fills the slots from `ioapic_count` on, in order, and touches nothing else. -/
theorem apply_ioapic_records_spec (es : List MadtIoapic) (info : Info)
    (hk : info.root.ioapic_count + es.length ≤ 65535) :
    (apply_ioapic_records es info).root
        = { info.root with ioapic_count := info.root.ioapic_count + es.length }
    ∧ (apply_ioapic_records es info).cpu = info.cpu
    ∧ (∀ j, j < info.root.ioapic_count →
        (apply_ioapic_records es info).ioapic j = info.ioapic j)
    ∧ ∀ j (hj : j < es.length),
        (apply_ioapic_records es info).ioapic (info.root.ioapic_count + j)
          = { info.ioapic (info.root.ioapic_count + j) with
              apic_id := (es.get ⟨j, hj⟩).apic_id
              mmio_paddr := (es.get ⟨j, hj⟩).mmio_addr
              gsi_base := (es.get ⟨j, hj⟩).gsi_base } := by
  induction es generalizing info with
  | nil =>
    refine ⟨rfl, rfl, fun _ _ => rfl, ?_⟩
    intro j hj
    cases hj
  | cons e es ih =>
    simp only [List.length_cons] at hk
    have hmod : (info.root.ioapic_count + 1) % 65536 = info.root.ioapic_count + 1 := by omega
    have hcnt : (acpi_parse_madt_ioapic e info).root.ioapic_count
        = info.root.ioapic_count + 1 := by
      rw [acpi_parse_madt_ioapic_eq]
      exact hmod
    obtain ⟨h1, h2, h3, h4⟩ := ih (acpi_parse_madt_ioapic e info) (by rw [hcnt]; omega)
    rw [apply_ioapic_records_cons]
    refine ⟨?_, ?_, ?_, ?_⟩
    · rw [h1, hcnt, acpi_parse_madt_ioapic_eq]
      simp only [List.length_cons]
      congr 1
      omega
    · rw [h2, acpi_parse_madt_ioapic_eq]
    · intro j hj
      rw [h3 j (by rw [hcnt]; omega), acpi_parse_madt_ioapic_eq]
      exact Function.update_noteq (by omega) _ _
    · intro j hj
      cases j with
      | zero =>
        rw [Nat.add_zero, h3 _ (by rw [hcnt]; omega), acpi_parse_madt_ioapic_eq]
        simp only [Function.update_same]
        rfl
      | succ j =>
        have hj1 : j < es.length := by simpa using hj
        have h5 := h4 j hj1
        rw [hcnt] at h5
        have hidx : info.root.ioapic_count + (j + 1) = info.root.ioapic_count + 1 + j := by
          omega
        rw [hidx, h5, acpi_parse_madt_ioapic_eq]
        simp only
        rw [Function.update_noteq (by omega)]
        rfl

/-- C12 (as the code has it): when `ioapic_count = k` is below 65535,
`acpi_parse_madt_ioapic` sets `ioapic_count` to `k + 1` and stores the id, the
MMIO address and the base interrupt number of the record into IO-APIC slot `k`;
every other slot, the CPU array and every other field of the root summary are
unchanged.  A run of records that keeps the count within 16 bits is stored in
the slots `k`, `k + 1`, ... in discovery order. -/
theorem acpi_parse_madt_ioapic_appends (e : MadtIoapic) (es : List MadtIoapic) (info : Info)
    (hk : info.root.ioapic_count < 65535) :
    (acpi_parse_madt_ioapic e info).root
        = { info.root with ioapic_count := info.root.ioapic_count + 1 }
    ∧ (acpi_parse_madt_ioapic e info).ioapic info.root.ioapic_count
        = { info.ioapic info.root.ioapic_count with
            apic_id := e.apic_id, mmio_paddr := e.mmio_addr, gsi_base := e.gsi_base }
    ∧ (∀ j, j ≠ info.root.ioapic_count →
        (acpi_parse_madt_ioapic e info).ioapic j = info.ioapic j)
    ∧ (acpi_parse_madt_ioapic e info).cpu = info.cpu
    ∧ (info.root.ioapic_count + es.length ≤ 65535 →
        (apply_ioapic_records es info).root.ioapic_count = info.root.ioapic_count + es.length
        ∧ ∀ j (hj : j < es.length),
            ((apply_ioapic_records es info).ioapic (info.root.ioapic_count + j)).apic_id
                = (es.get ⟨j, hj⟩).apic_id
            ∧ ((apply_ioapic_records es info).ioapic (info.root.ioapic_count + j)).mmio_paddr
                = (es.get ⟨j, hj⟩).mmio_addr
            ∧ ((apply_ioapic_records es info).ioapic (info.root.ioapic_count + j)).gsi_base
                = (es.get ⟨j, hj⟩).gsi_base) := by
  have hmod : (info.root.ioapic_count + 1) % 65536 = info.root.ioapic_count + 1 := by omega
  refine ⟨?_, ?_, ?_, rfl, ?_⟩
  · rw [acpi_parse_madt_ioapic_eq, hmod]
  · rw [acpi_parse_madt_ioapic_eq]
    simp only [Function.update_same]
  · intro j hj
    rw [acpi_parse_madt_ioapic_eq]
    exact Function.update_noteq hj _ _
  · intro hlen
    obtain ⟨h1, -, -, h4⟩ := apply_ioapic_records_spec es info hlen
    refine ⟨by rw [h1], ?_⟩
    intro j hj
    rw [h4 j hj]
    exact ⟨rfl, rfl, rfl⟩

theorem acpi_parse_madt_ioapic_appends_witness :
    (acpi_parse_madt_ioapic ⟨2, 0xFEC00000, 0⟩ Info.zero).root
        = { Info.zero.root with ioapic_count := Info.zero.root.ioapic_count + 1 }
    ∧ (acpi_parse_madt_ioapic ⟨2, 0xFEC00000, 0⟩ Info.zero).ioapic Info.zero.root.ioapic_count
        = { Info.zero.ioapic Info.zero.root.ioapic_count with
            apic_id := 2, mmio_paddr := 0xFEC00000, gsi_base := 0 }
    ∧ (∀ j, j ≠ Info.zero.root.ioapic_count →
        (acpi_parse_madt_ioapic ⟨2, 0xFEC00000, 0⟩ Info.zero).ioapic j = Info.zero.ioapic j)
    ∧ (acpi_parse_madt_ioapic ⟨2, 0xFEC00000, 0⟩ Info.zero).cpu = Info.zero.cpu
    ∧ (Info.zero.root.ioapic_count + [(⟨2, 0xFEC00000, 0⟩ : MadtIoapic), ⟨3, 0xFEC01000, 24⟩].length
          ≤ 65535 →
        (apply_ioapic_records [⟨2, 0xFEC00000, 0⟩, ⟨3, 0xFEC01000, 24⟩] Info.zero).root.ioapic_count
          = Info.zero.root.ioapic_count
            + [(⟨2, 0xFEC00000, 0⟩ : MadtIoapic), ⟨3, 0xFEC01000, 24⟩].length
        ∧ ∀ j (hj : j < [(⟨2, 0xFEC00000, 0⟩ : MadtIoapic), ⟨3, 0xFEC01000, 24⟩].length),
            ((apply_ioapic_records [⟨2, 0xFEC00000, 0⟩, ⟨3, 0xFEC01000, 24⟩] Info.zero).ioapic
                (Info.zero.root.ioapic_count + j)).apic_id
              = ([(⟨2, 0xFEC00000, 0⟩ : MadtIoapic), ⟨3, 0xFEC01000, 24⟩].get ⟨j, hj⟩).apic_id
            ∧ ((apply_ioapic_records [⟨2, 0xFEC00000, 0⟩, ⟨3, 0xFEC01000, 24⟩] Info.zero).ioapic
                (Info.zero.root.ioapic_count + j)).mmio_paddr
              = ([(⟨2, 0xFEC00000, 0⟩ : MadtIoapic), ⟨3, 0xFEC01000, 24⟩].get ⟨j, hj⟩).mmio_addr
            ∧ ((apply_ioapic_records [⟨2, 0xFEC00000, 0⟩, ⟨3, 0xFEC01000, 24⟩] Info.zero).ioapic
                (Info.zero.root.ioapic_count + j)).gsi_base
              = ([(⟨2, 0xFEC00000, 0⟩ : MadtIoapic), ⟨3, 0xFEC01000, 24⟩].get ⟨j, hj⟩).gsi_base) :=
  acpi_parse_madt_ioapic_appends ⟨2, 0xFEC00000, 0⟩ [⟨2, 0xFEC00000, 0⟩, ⟨3, 0xFEC01000, 24⟩]
    Info.zero (by decide)

/-- C12 (as stated) fails: with `ioapic_count = 65535` the 16-bit count wraps, so
after `acpi_parse_madt_ioapic` it is 0 and not `65535 + 1`. -/
theorem acpi_parse_madt_ioapic_count_wraps :
    info_ioapic_count_max.root.ioapic_count = 65535
    ∧ (acpi_parse_madt_ioapic ⟨2, 0xFEC00000, 0⟩ info_ioapic_count_max).root.ioapic_count = 0
    ∧ (acpi_parse_madt_ioapic ⟨2, 0xFEC00000, 0⟩ info_ioapic_count_max).root.ioapic_count
        ≠ 65535 + 1 := by
  refine ⟨by decide, by decide, by decide⟩

theorem or_lt_256 (a b : Nat) (ha : a < 256) (hb : b < 256) : a ||| b < 256 :=
  Nat.or_lt_two_pow (n := 8) ha hb

/-- C13: `acpi_parse_madt_iso` leaves the info tables unchanged when the bus
field of the record is not 1, the value the handler accepts as ISA, or its `irq`
is at least 16.  Otherwise `irq_gsi[irq]` becomes the `gsi` of the record and
`irq_flags[irq]` becomes the old flags OR-ed with `ACTIVE_LOW` when the polarity
field is active-low and with `LEVEL` when the trigger field is level, so no flag
bit that was set is cleared; every other array entry and field is unchanged. -/
theorem acpi_parse_madt_iso_spec (h : AcpiH) (r : MadtIso) (info : Info)
    (hflags : info.root.irq_flags r.irq < 256) :
    (r.bus ≠ 1 ∨ r.irq ≥ 16 → acpi_parse_madt_iso h r info = info)
    ∧ (r.bus = 1 → r.irq < 16 →
        (acpi_parse_madt_iso h r info).root.irq_gsi r.irq = r.gsi
        ∧ (acpi_parse_madt_iso h r info).root.irq_flags r.irq
            = info.root.irq_flags r.irq
              ||| (if (r.flags >>> h.ACPI_MADT_ISO_POLARITY_OFFSET) &&& 0b11
                    = h.ACPI_MADT_ISO_POLARITY_LOW then HY_INFO_IRQ_FLAG_ACTIVE_LOW else 0)
              ||| (if (r.flags >>> h.ACPI_MADT_ISO_TRIGGER_OFFSET) &&& 0b11
                    = h.ACPI_MADT_ISO_TRIGGER_LEVEL then HY_INFO_IRQ_FLAG_LEVEL else 0)
        ∧ (∀ b, (info.root.irq_flags r.irq).testBit b = true →
            ((acpi_parse_madt_iso h r info).root.irq_flags r.irq).testBit b = true)
        ∧ (∀ j, j ≠ r.irq →
            (acpi_parse_madt_iso h r info).root.irq_gsi j = info.root.irq_gsi j
            ∧ (acpi_parse_madt_iso h r info).root.irq_flags j = info.root.irq_flags j)
        ∧ (acpi_parse_madt_iso h r info).cpu = info.cpu
        ∧ (acpi_parse_madt_iso h r info).ioapic = info.ioapic
        ∧ (acpi_parse_madt_iso h r info).root
            = { info.root with
                irq_gsi := (acpi_parse_madt_iso h r info).root.irq_gsi
                irq_flags := (acpi_parse_madt_iso h r info).root.irq_flags }) := by
  constructor
  · intro hskip
    unfold acpi_parse_madt_iso
    rw [if_pos hskip]
  · intro hbus hirq
    have hgo : ¬ (r.bus ≠ 1 ∨ r.irq ≥ 16) := by omega
    have hflag : (acpi_parse_madt_iso h r info).root.irq_flags r.irq
        = info.root.irq_flags r.irq
          ||| (if (r.flags >>> h.ACPI_MADT_ISO_POLARITY_OFFSET) &&& 0b11
                = h.ACPI_MADT_ISO_POLARITY_LOW then HY_INFO_IRQ_FLAG_ACTIVE_LOW else 0)
          ||| (if (r.flags >>> h.ACPI_MADT_ISO_TRIGGER_OFFSET) &&& 0b11
                = h.ACPI_MADT_ISO_TRIGGER_LEVEL then HY_INFO_IRQ_FLAG_LEVEL else 0) := by
      have h1 := or_lt_256 _ 1 hflags (by decide)
      have h2 := or_lt_256 _ 2 hflags (by decide)
      have h3 := or_lt_256 _ 2 h1 (by decide)
      unfold acpi_parse_madt_iso
      rw [if_neg hgo]
      simp only [HY_INFO_IRQ_FLAG_ACTIVE_LOW, HY_INFO_IRQ_FLAG_LEVEL, Nat.shiftLeft_zero,
        show (1 <<< 1 : Nat) = 2 from rfl]
      split <;> split <;>
        simp [Function.update_same, Nat.mod_eq_of_lt h1, Nat.mod_eq_of_lt h2,
          Nat.mod_eq_of_lt h3]
    refine ⟨?_, hflag, ?_, ?_, ?_, ?_, ?_⟩
    · unfold acpi_parse_madt_iso
      rw [if_neg hgo]
      simp only
      split <;> split <;> simp [Function.update_same]
    · intro b hb
      rw [hflag]
      simp [Nat.testBit_or, hb]
    · intro j hj
      unfold acpi_parse_madt_iso
      rw [if_neg hgo]
      simp only
      split <;> split <;> simp [Function.update_noteq hj]
    · unfold acpi_parse_madt_iso
      rw [if_neg hgo]
    · unfold acpi_parse_madt_iso
      rw [if_neg hgo]
    · unfold acpi_parse_madt_iso
      rw [if_neg hgo]
      simp only
      split <;> split <;> rfl

theorem acpi_parse_madt_iso_spec_witness :
    (acpi_parse_madt_iso acpi_h ⟨1, 0, 2, 0xF⟩ Info.zero).root.irq_gsi 0 = 2
    ∧ (acpi_parse_madt_iso acpi_h ⟨1, 0, 2, 0xF⟩ Info.zero).root.irq_flags 0
        = HY_INFO_IRQ_FLAG_ACTIVE_LOW ||| HY_INFO_IRQ_FLAG_LEVEL
    ∧ acpi_parse_madt_iso acpi_h ⟨1, 16, 2, 0xF⟩ Info.zero = Info.zero :=
  ⟨((acpi_parse_madt_iso_spec acpi_h ⟨1, 0, 2, 0xF⟩ Info.zero (by decide)).2 rfl
      (by decide)).1,
    by decide,
    (acpi_parse_madt_iso_spec acpi_h ⟨1, 16, 2, 0xF⟩ Info.zero (by decide)).1
      (Or.inr (by decide))⟩

/-- C14 (the code differs): `acpi_parse_madt_iso` returns at once for every
record whose bus field is 0, the number of the ISA bus in the multi-APIC table:
the handler tests `bus != 1`.  For the record with bus 0, line 0, target
interrupt 2 and zeroed info tables, `irq_gsi[0]` stays 0. -/
theorem acpi_parse_madt_iso_ignores_bus0 :
    (∀ (h : AcpiH) (r : MadtIso) (info : Info), r.bus = 0 → acpi_parse_madt_iso h r info = info)
    ∧ (0 : Nat) < 16
    ∧ (acpi_parse_madt_iso acpi_h ⟨0, 0, 2, 0xF⟩ Info.zero).root.irq_gsi 0 = 0
    ∧ (acpi_parse_madt_iso acpi_h ⟨0, 0, 2, 0xF⟩ Info.zero).root.irq_gsi 0 ≠ 2 := by
  refine ⟨?_, by decide, by decide, by decide⟩
  intro h r info hbus
  unfold acpi_parse_madt_iso
  rw [if_pos (Or.inl (by omega))]

/-! ## The walk over the multi-APIC table -/

theorem acpi_parse_madt_eq (h : AcpiH) (fuel : Nat) (mem : Mem) (madt : Nat) (info : Info) :
    acpi_parse_madt h fuel mem madt info
      = acpi_parse_madt_loop h mem fuel (wadd madt h.sizeof_madt)
          (wsub (read32 mem (madt + h.sdt_length)) h.sizeof_madt)
          (madt_header_applied h mem madt info) := by
  unfold acpi_parse_madt madt_header_applied
  simp only
  split <;> rfl

/-- The loop of `acpi_parse_madt` on a chain of `n` records of positive length
whose lengths add up to `size_left`: it ends after `n` iterations and has
applied the handlers in order. -/
theorem acpi_parse_madt_loop_chain (h : AcpiH) (mem : Mem) (n fuel entry size_left : Nat)
    (info : Info) (hfuel : n ≤ fuel) (hsize : size_left < WORD)
    (hpos : ∀ l ∈ madt_chain_lengths h mem n entry, 0 < l)
    (hsum : (madt_chain_lengths h mem n entry).sum = size_left) :
    acpi_parse_madt_loop h mem fuel entry size_left info
      = .done (apply_madt_records h mem (madt_chain h mem n entry) info) := by
  induction n generalizing fuel entry size_left info with
  | zero =>
    have hz : size_left = 0 := by simpa [madt_chain_lengths, madt_chain] using hsum.symm
    subst hz
    cases fuel <;> simp [acpi_parse_madt_loop, apply_madt_records, madt_chain]
  | succ n ih =>
    cases fuel with
    | zero => omega
    | succ fuel =>
      simp only [madt_chain_lengths, madt_chain, List.map_cons, List.sum_cons, List.mem_cons,
        forall_eq_or_imp] at hpos hsum
      have hgt : size_left > 0 := by omega
      have hlen : read8 mem (entry + h.entry_length) ≤ size_left := by omega
      rw [acpi_parse_madt_loop, if_pos hgt]
      simp only
      rw [ih fuel _ (wsub size_left (read8 mem (entry + h.entry_length))) _ (by omega)
        (by rw [wsub_eq_sub _ _ hlen hsize]; omega) hpos.2
        (by rw [wsub_eq_sub _ _ hlen hsize]; unfold madt_chain_lengths; omega)]
      rfl

/-- The walk of `acpi_parse_madt` over a table whose records have positive
declared lengths that add up to `header.length - sizeof (acpi_madt_t)`: with
fuel for its `n` records it returns, and the result is the header taken over
followed by the handlers applied once each in table order. -/
theorem acpi_parse_madt_well_formed (h : AcpiH) (mem : Mem) (madt n fuel : Nat) (info : Info)
    (hfuel : n ≤ fuel)
    (hlen : h.sizeof_madt ≤ read32 mem (madt + h.sdt_length))
    (hpos : ∀ l ∈ madt_chain_lengths h mem n (wadd madt h.sizeof_madt), 0 < l)
    (hsum : (madt_chain_lengths h mem n (wadd madt h.sizeof_madt)).sum
      = read32 mem (madt + h.sdt_length) - h.sizeof_madt) :
    acpi_parse_madt h fuel mem madt info
      = .done (apply_madt_records h mem (madt_chain h mem n (wadd madt h.sizeof_madt))
          (madt_header_applied h mem madt info)) := by
  have hL : read32 mem (madt + h.sdt_length) < WORD :=
    lt_trans (read32_lt mem _) (by rw [WORD_eq]; decide)
  rw [acpi_parse_madt_eq]
  apply acpi_parse_madt_loop_chain h mem n fuel _ _ _ hfuel
  · rw [wsub_eq_sub _ _ hlen hL]; omega
  · exact hpos
  · rw [wsub_eq_sub _ _ hlen hL, hsum]

set_option maxRecDepth 100000 in
/-- The table `img_apic` of `mem_acpi` is well formed with four records. -/
theorem acpi_parse_madt_well_formed_example :
    acpi_parse_madt acpi_h 4 mem_acpi 0xE0180 Info.zero
      = .done (apply_madt_records acpi_h mem_acpi
          (madt_chain acpi_h mem_acpi 4 (wadd 0xE0180 acpi_h.sizeof_madt))
          (madt_header_applied acpi_h mem_acpi 0xE0180 Info.zero)) :=
  acpi_parse_madt_well_formed acpi_h mem_acpi 0xE0180 4 4 Info.zero (by decide) (by decide)
    (by decide) (by decide)

set_option maxRecDepth 100000 in
/-- The table `img_apic` of `mem_acpi`, whose override record has the bus field 1,
gives `cpu_count = 2`, `cpu_count_active = 2`, `ioapic_count = 1`,
`irq_gsi[0] = 2` and `irq_flags[0] = ACTIVE_LOW | LEVEL`. -/
theorem acpi_parse_madt_bus1_example :
    (read_madt_iso acpi_h mem_acpi 0xE01C8).bus = 1
    ∧ ((acpi_parse_madt acpi_h 4 mem_acpi 0xE0180 Info.zero).returned.map
        fun s => s.root.cpu_count) = some 2
    ∧ ((acpi_parse_madt acpi_h 4 mem_acpi 0xE0180 Info.zero).returned.map
        fun s => s.root.cpu_count_active) = some 2
    ∧ ((acpi_parse_madt acpi_h 4 mem_acpi 0xE0180 Info.zero).returned.map
        fun s => s.root.ioapic_count) = some 1
    ∧ ((acpi_parse_madt acpi_h 4 mem_acpi 0xE0180 Info.zero).returned.map
        fun s => s.root.irq_gsi 0) = some 2
    ∧ ((acpi_parse_madt acpi_h 4 mem_acpi 0xE0180 Info.zero).returned.map
        fun s => s.root.irq_flags 0)
        = some (HY_INFO_IRQ_FLAG_ACTIVE_LOW ||| HY_INFO_IRQ_FLAG_LEVEL) := by
  refine ⟨by decide, by decide, by decide, by decide, by decide, by decide⟩

set_option maxRecDepth 100000 in
/-- C15 (the code differs): the table `img_apic_isa` has two controller records
(ids 0 and 1), one IO-controller record (base interrupt 0) and one override
record for the ISA bus (bus 0), line 0, target interrupt 2, active-low and level.
From zeroed info tables `acpi_parse_madt` returns with `cpu_count = 2`,
`cpu_count_active = 2` and `ioapic_count = 1`, but `irq_gsi[0]` and
`irq_flags[0]` stay 0: the override handler ignores bus 0. -/
theorem acpi_parse_madt_isa_override_ignored :
    madt_chain acpi_h mem_apic_isa 4 (wadd 0xE0000 acpi_h.sizeof_madt)
        = [0xE002C, 0xE0034, 0xE003C, 0xE0048]
    ∧ (madt_chain_lengths acpi_h mem_apic_isa 4 (wadd 0xE0000 acpi_h.sizeof_madt)).sum
        = read32 mem_apic_isa (0xE0000 + acpi_h.sdt_length) - acpi_h.sizeof_madt
    ∧ (read_madt_iso acpi_h mem_apic_isa 0xE0048).bus = 0
    ∧ (read_madt_iso acpi_h mem_apic_isa 0xE0048).irq = 0
    ∧ (read_madt_iso acpi_h mem_apic_isa 0xE0048).gsi = 2
    ∧ ((acpi_parse_madt acpi_h 4 mem_apic_isa 0xE0000 Info.zero).returned.map
        fun s => s.root.cpu_count) = some 2
    ∧ ((acpi_parse_madt acpi_h 4 mem_apic_isa 0xE0000 Info.zero).returned.map
        fun s => s.root.cpu_count_active) = some 2
    ∧ ((acpi_parse_madt acpi_h 4 mem_apic_isa 0xE0000 Info.zero).returned.map
        fun s => s.root.ioapic_count) = some 1
    ∧ ((acpi_parse_madt acpi_h 4 mem_apic_isa 0xE0000 Info.zero).returned.map
        fun s => s.root.irq_gsi 0) = some 0
    ∧ ((acpi_parse_madt acpi_h 4 mem_apic_isa 0xE0000 Info.zero).returned.map
        fun s => s.root.irq_flags 0) = some 0 := by
  refine ⟨by decide, by decide, by decide, by decide, by decide, by decide, by decide,
    by decide, by decide, by decide⟩

/-! ## The bound of `cpu_count` on the CPU array -/

theorem acpi_parse_madt_lapic_bounds (e : MadtLapic) (info : Info) (hid : e.apic_id < 256)
    (hinv : cpu_count_bounds_present info) :
    cpu_count_bounds_present (acpi_parse_madt_lapic e info) := by
  intro i hi
  rw [acpi_parse_madt_lapic_cpu_count e info hid]
  rw [acpi_parse_madt_lapic_cpu] at hi
  by_cases hie : i = e.apic_id
  · omega
  · rw [Function.update_noteq hie] at hi
    have := hinv i hi
    omega

theorem acpi_parse_madt_iso_cpu (h : AcpiH) (r : MadtIso) (info : Info) :
    (acpi_parse_madt_iso h r info).cpu = info.cpu
    ∧ (acpi_parse_madt_iso h r info).root.cpu_count = info.root.cpu_count := by
  unfold acpi_parse_madt_iso
  split
  · exact ⟨rfl, rfl⟩
  · constructor
    · rfl
    · simp only
      split <;> split <;> rfl

theorem acpi_parse_madt_entry_bounds (h : AcpiH) (mem : Mem) (entry : Nat) (info : Info)
    (hinv : cpu_count_bounds_present info) :
    cpu_count_bounds_present (acpi_parse_madt_entry h mem entry info) := by
  unfold acpi_parse_madt_entry
  simp only
  split
  · exact acpi_parse_madt_lapic_bounds _ info (read8_lt mem _) hinv
  · split
    · exact hinv
    · split
      · intro i hi
        rw [(acpi_parse_madt_iso_cpu h _ info).1] at hi
        rw [(acpi_parse_madt_iso_cpu h _ info).2]
        exact hinv i hi
      · exact hinv

theorem acpi_parse_madt_loop_bounds (h : AcpiH) (mem : Mem) (fuel entry size_left : Nat)
    (info s : Info) (hinv : cpu_count_bounds_present info)
    (hd : acpi_parse_madt_loop h mem fuel entry size_left info = .done s) :
    cpu_count_bounds_present s := by
  induction fuel generalizing entry size_left info with
  | zero =>
    unfold acpi_parse_madt_loop at hd
    split at hd
    · cases hd
    · cases hd; exact hinv
  | succ fuel ih =>
    unfold acpi_parse_madt_loop at hd
    split at hd
    · exact ih _ _ _ (acpi_parse_madt_entry_bounds h mem entry info hinv) hd
    · cases hd; exact hinv

/-- C20: the predicate "every CPU slot whose PRESENT flag is set has an index
below `cpu_count`" holds for the zeroed info tables and is preserved by
`acpi_parse_madt_lapic` (for every record with an 8-bit apic id), by
`acpi_parse_madt_ioapic` and by `acpi_parse_madt_iso`, hence by every walk of
`acpi_parse_madt` that returns. -/
theorem cpu_count_bounds_present_invariant :
    cpu_count_bounds_present Info.zero
    ∧ (∀ (e : MadtLapic) (info : Info), e.apic_id < 256 → cpu_count_bounds_present info →
        cpu_count_bounds_present (acpi_parse_madt_lapic e info))
    ∧ (∀ (e : MadtIoapic) (info : Info), cpu_count_bounds_present info →
        cpu_count_bounds_present (acpi_parse_madt_ioapic e info))
    ∧ (∀ (h : AcpiH) (r : MadtIso) (info : Info), cpu_count_bounds_present info →
        cpu_count_bounds_present (acpi_parse_madt_iso h r info))
    ∧ (∀ (h : AcpiH) (fuel : Nat) (mem : Mem) (madt : Nat) (info s : Info),
        cpu_count_bounds_present info → acpi_parse_madt h fuel mem madt info = .done s →
        cpu_count_bounds_present s) := by
  refine ⟨?_, acpi_parse_madt_lapic_bounds, ?_, ?_, ?_⟩
  · intro i hi
    simp [cpu_present, Info.zero] at hi
  · intro e info hinv
    exact hinv
  · intro h r info hinv i hi
    rw [(acpi_parse_madt_iso_cpu h r info).1] at hi
    rw [(acpi_parse_madt_iso_cpu h r info).2]
    exact hinv i hi
  · intro h fuel mem madt info s hinv hd
    rw [acpi_parse_madt_eq] at hd
    exact acpi_parse_madt_loop_bounds h mem fuel _ _ _ s
      (show cpu_count_bounds_present (madt_header_applied h mem madt info) from hinv) hd

/-! ## Claims about `lapic.c` -/

/-- C16: for every 64-bit value `icr`, `lapic_ipi` does exactly two register
writes, in this order: the high interrupt command register with `icr >> 32`,
then the low interrupt command register with `icr mod 2^32`. -/
theorem lapic_ipi_writes (L : LapicH) (info : Info) (icr : Nat) (m : Mmio)
    (hicr : icr < 2 ^ 64) :
    (lapic_ipi L info icr m).writes
      = m.writes ++
          [(wadd info.root.lapic_paddr L.LAPIC_REG_ICR_HIGH, icr >>> 32),
           (wadd info.root.lapic_paddr L.LAPIC_REG_ICR_LOW, icr % 2 ^ 32)] := by
  have hhigh : (icr >>> 32) % 4294967296 = icr >>> 32 := by
    rw [Nat.shiftRight_eq_div_pow]
    omega
  simp [lapic_ipi, lapic_register_write, hhigh]

theorem lapic_ipi_writes_witness :
    (lapic_ipi lapic_h Info.zero 0x00000003000C4500 Mmio.zero).writes
      = Mmio.zero.writes ++
          [(wadd Info.zero.root.lapic_paddr lapic_h.LAPIC_REG_ICR_HIGH, 0x00000003000C4500 >>> 32),
           (wadd Info.zero.root.lapic_paddr lapic_h.LAPIC_REG_ICR_LOW,
             0x00000003000C4500 % 2 ^ 32)] :=
  lapic_ipi_writes lapic_h Info.zero 0x00000003000C4500 Mmio.zero (by decide)

/-- The register writes of `lapic_timer_wait`: divisor, timer entry with the
vector `0x40`, and last the initial count, which is the tick count converted to
32 bits. -/
theorem lapic_timer_wait_writes (L : LapicH) (info : Info) (time : Nat) (m : Mmio) :
    (lapic_timer_wait L info time m).writes
      = m.writes ++
          [(wadd info.root.lapic_paddr L.LAPIC_REG_TIMER_DIV, 0xB),
           (wadd info.root.lapic_paddr L.LAPIC_REG_TIMER, 0x40),
           (wadd info.root.lapic_paddr L.LAPIC_REG_TIMER_INIT,
             lapic_timer_wait_ticks L info time m % 4294967296)] := by
  simp [lapic_timer_wait, lapic_timer_update, lapic_register_write]

/-- C17 (as the code has it): with `F` the calibrated frequency in the CPU record
of the calling core and `T` the requested duration, `lapic_timer_wait` writes to
the initial-count register the value `((F * T mod 2^64) / 1000000) mod 2^32`;
this is `F * T / 1000000` whenever that quotient is below `2^32`. -/
theorem lapic_timer_wait_initial_count (L : LapicH) (info : Info) (T : Nat) (m : Mmio)
    (hF : (info.cpu (lapic_id L info m)).lapic_timer_freq < 2 ^ 32) (hT : T < 2 ^ 64) :
    (lapic_timer_wait L info T m).writes.getLast?
        = some (wadd info.root.lapic_paddr L.LAPIC_REG_TIMER_INIT,
            ((info.cpu (lapic_id L info m)).lapic_timer_freq * T % 2 ^ 64 / 1000000) % 2 ^ 32)
    ∧ ((info.cpu (lapic_id L info m)).lapic_timer_freq * T / 1000000 < 2 ^ 32 →
        (lapic_timer_wait L info T m).writes.getLast?
          = some (wadd info.root.lapic_paddr L.LAPIC_REG_TIMER_INIT,
              (info.cpu (lapic_id L info m)).lapic_timer_freq * T / 1000000)) := by
  have hticks : lapic_timer_wait_ticks L info T m
      = (info.cpu (lapic_id L info m)).lapic_timer_freq * T % 2 ^ 64 / 1000000 := by
    unfold lapic_timer_wait_ticks
    rw [WORD_eq]
    rw [Nat.mod_eq_of_lt (show (info.cpu (lapic_id L info m)).lapic_timer_freq < 4294967296
      from hF), Nat.mod_eq_of_lt (show T < 18446744073709551616 from hT)]
    norm_num
  have hlast : (lapic_timer_wait L info T m).writes.getLast?
      = some (wadd info.root.lapic_paddr L.LAPIC_REG_TIMER_INIT,
          ((info.cpu (lapic_id L info m)).lapic_timer_freq * T % 2 ^ 64 / 1000000) % 2 ^ 32) := by
    rw [lapic_timer_wait_writes, hticks]
    simp
  refine ⟨hlast, ?_⟩
  intro hfit
  rw [hlast]
  have hprod : (info.cpu (lapic_id L info m)).lapic_timer_freq * T < 2 ^ 64 := by
    have := Nat.lt_mul_of_div_lt hfit (by decide : 0 < 1000000)
    omega
  rw [Nat.mod_eq_of_lt hprod, Nat.mod_eq_of_lt hfit]

theorem lapic_timer_wait_initial_count_witness :
    (lapic_timer_wait lapic_h (info_with_freq 1000000) 250 Mmio.zero).writes.getLast?
      = some (wadd (info_with_freq 1000000).root.lapic_paddr lapic_h.LAPIC_REG_TIMER_INIT,
          ((info_with_freq 1000000).cpu
            (lapic_id lapic_h (info_with_freq 1000000) Mmio.zero)).lapic_timer_freq
            * 250 / 1000000) :=
  (lapic_timer_wait_initial_count lapic_h (info_with_freq 1000000) 250 Mmio.zero
    (by decide) (by decide)).2 (by decide)

/-- C17 (as stated) fails: with the frequency `F = 1000000` and the duration
`T = 2^32` microseconds the quotient `F * T / 1000000` is `2^32`, but the value
written to the initial-count register is 0. -/
theorem lapic_timer_wait_truncates :
    ((info_with_freq 1000000).cpu
        (lapic_id lapic_h (info_with_freq 1000000) Mmio.zero)).lapic_timer_freq = 1000000
    ∧ 1000000 * 4294967296 / 1000000 = 4294967296
    ∧ (lapic_timer_wait lapic_h (info_with_freq 1000000) 4294967296 Mmio.zero).writes.getLast?
        = some (wadd (info_with_freq 1000000).root.lapic_paddr lapic_h.LAPIC_REG_TIMER_INIT, 0) := by
  refine ⟨by decide, by decide, by decide⟩

/-! ## Claims about the entry barrier -/


theorem bsp_step_eq (s : Boot) :
    bsp_step s
      = if s.bsp_pc = 28 then { s with free_paddr_set := true, bsp_pc := s.bsp_pc + 1 }
        else if s.bsp_pc = 29 then { s with main_entry_barrier := 0, bsp_pc := s.bsp_pc + 1 }
        else if s.bsp_pc < 31 then { s with bsp_pc := s.bsp_pc + 1 }
        else s := by
  obtain ⟨b, f, pc, ap⟩ := s
  by_cases hpc : pc < 31
  · interval_cases pc <;> rfl
  · have hnone : main_bsp.get? pc = none := List.get?_eq_none.mpr (by
      have : main_bsp.length = 31 := rfl
      omega)
    have h28 : ¬ pc = 28 := by omega
    have h29 : ¬ pc = 29 := by omega
    simp only [bsp_step, hnone, h28, h29, hpc, if_false]

theorem ap_step_eq (c : Nat) (s : Boot) :
    ap_step c s
      = if s.ap_pc c = 6 then
          if s.main_entry_barrier = 1 then s
          else { s with ap_pc := Function.update s.ap_pc c (s.ap_pc c + 1) }
        else if s.ap_pc c < 8 then
          { s with ap_pc := Function.update s.ap_pc c (s.ap_pc c + 1) }
        else s := by
  unfold ap_step
  generalize hpc : s.ap_pc c = pc
  by_cases hlt : pc < 8
  · interval_cases pc <;> rfl
  · have hnone : main_ap.get? pc = none := List.get?_eq_none.mpr (by
      have : main_ap.length = 8 := rfl
      omega)
    have h6 : ¬ pc = 6 := by omega
    simp only [hnone, h6, hlt, if_false]

theorem BarrierInv_init : BarrierInv Boot.init := by
  refine ⟨Or.inl rfl, ?_, ?_, ?_, ?_⟩
  · intro h; cases h
  · intro h; simp [Boot.init] at h
  · intro h; simp [Boot.init] at h
  · intro c h; simp [Boot.init] at h

theorem BarrierInv_bsp_step (s : Boot) (hinv : BarrierInv s) : BarrierInv (bsp_step s) := by
  obtain ⟨h1, h2, h3, h4, h5⟩ := hinv
  rw [bsp_step_eq]
  split
  · rename_i hpc
    refine ⟨h1, ?_, ?_, ?_, h5⟩
    · intro h0; have := h2 h0; omega
    · intro _; rfl
    · intro h; simp only at h; omega
  · split
    · rename_i hpc
      refine ⟨Or.inr rfl, ?_, ?_, ?_, ?_⟩
      · intro _; simp only; omega
      · intro _; exact h3 (by omega)
      · intro _; rfl
      · intro c _; rfl
    · split
      · rename_i hn28 hn29 hlt
        refine ⟨h1, ?_, ?_, ?_, h5⟩
        · intro h0; have := h2 h0; simp only; omega
        · intro h; simp only at h; exact h3 (by omega)
        · intro h; simp only at h; exact h4 (by omega)
      · exact ⟨h1, h2, h3, h4, h5⟩

theorem BarrierInv_ap_step (c : Nat) (s : Boot) (hinv : BarrierInv s) :
    BarrierInv (ap_step c s) := by
  obtain ⟨h1, h2, h3, h4, h5⟩ := hinv
  rw [ap_step_eq]
  split
  · rename_i hpc
    split
    · exact ⟨h1, h2, h3, h4, h5⟩
    · rename_i hb
      have hb0 : s.main_entry_barrier = 0 := by
        rcases h1 with h | h
        · exact absurd h hb
        · exact h
      exact ⟨h1, h2, h3, h4, fun _ _ => hb0⟩
  · split
    · rename_i hn6 hlt
      refine ⟨h1, h2, h3, h4, ?_⟩
      intro d hd
      simp only at hd
      by_cases hdc : d = c
      · subst hdc
        rw [Function.update_same] at hd
        exact h5 d (by omega)
      · rw [Function.update_noteq hdc] at hd
        exact h5 d hd
    · exact ⟨h1, h2, h3, h4, h5⟩

theorem BarrierInv_boot_run (schedule : List (Option Nat)) (s : Boot) (hinv : BarrierInv s) :
    BarrierInv (boot_run schedule s) := by
  induction schedule generalizing s with
  | nil => exact hinv
  | cons who rest ih =>
    cases who with
    | none => exact ih _ (BarrierInv_bsp_step s hinv)
    | some c => exact ih _ (BarrierInv_ap_step c s hinv)

/-- C18: in every state that the interleaved steps of `main_bsp` and of the
`main_ap` of the additional cores reach from `main_entry_barrier = 1`, an
additional core that has left the loop on the flag, and so reaches
`kernel_enter_ap`, finds the flag lowered, the first core past its store to the
flag, and `free_paddr` stored.  In `main_bsp` the store that lowers the flag
follows every other statement, the last of them being the store to
`free_paddr`, and is followed by `kernel_enter_bsp` alone. -/
theorem main_entry_barrier_protocol (schedule : List (Option Nat)) (c : Nat)
    (hap : ap_at_kernel_enter (boot_run schedule Boot.init) c = true) :
    (boot_run schedule Boot.init).main_entry_barrier = 0
    ∧ (boot_run schedule Boot.init).free_paddr_set = true
    ∧ main_bsp.indexOf Stmt.lower_barrier < (boot_run schedule Boot.init).bsp_pc
    ∧ main_bsp = main_bsp.take 28 ++ [.set_free_paddr, .lower_barrier, .kernel_enter_bsp]
    ∧ ∀ st ∈ main_bsp.take 28, ∃ text, st = .other text := by
  obtain ⟨-, h2, h3, -, h5⟩ := BarrierInv_boot_run schedule Boot.init BarrierInv_init
  have hidx : main_ap.indexOf Stmt.kernel_enter_ap = 7 := by decide
  have hidx2 : main_bsp.indexOf Stmt.lower_barrier = 29 := by decide
  simp only [ap_at_kernel_enter, hidx, decide_eq_true_eq] at hap
  have hb := h5 c hap
  have hpc := h2 hb
  refine ⟨hb, h3 (by omega), by rw [hidx2]; omega, rfl, ?_⟩
  intro st hst
  simp only [main_bsp, List.take] at hst
  simp only [List.mem_cons, List.mem_singleton] at hst
  rcases hst with h | h | h | h | h | h | h | h | h | h | h | h | h | h | h | h | h | h | h | h
    | h | h | h | h | h | h | h | h | h <;> first | exact ⟨_, h⟩ | cases h

set_option maxRecDepth 100000 in
theorem main_entry_barrier_protocol_witness :
    (boot_run (List.replicate 31 none ++ List.replicate 8 (some 0)) Boot.init).main_entry_barrier
        = 0
    ∧ (boot_run (List.replicate 31 none ++ List.replicate 8 (some 0)) Boot.init).free_paddr_set
        = true
    ∧ main_bsp.indexOf Stmt.lower_barrier
        < (boot_run (List.replicate 31 none ++ List.replicate 8 (some 0)) Boot.init).bsp_pc
    ∧ main_bsp = main_bsp.take 28 ++ [.set_free_paddr, .lower_barrier, .kernel_enter_bsp]
    ∧ ∀ st ∈ main_bsp.take 28, ∃ text, st = .other text :=
  main_entry_barrier_protocol (List.replicate 31 none ++ List.replicate 8 (some 0)) 0
    (by decide)

/-! ## Claims about the counts and the layout of the CPU array -/

set_option maxRecDepth 100000 in
/-- C21 (the code differs): from zeroed info tables, two processor-local-controller
records with the same apic id 0 leave one CPU slot with the PRESENT flag, but
`cpu_count_active` is 2: `acpi_parse_madt_lapic` increments the count for every
record. -/
theorem cpu_count_active_counts_records :
    present_count Info.zero = 0
    ∧ present_count (apply_lapic_records [⟨0, 0⟩, ⟨1, 0⟩] Info.zero) = 1
    ∧ (apply_lapic_records [⟨0, 0⟩, ⟨1, 0⟩] Info.zero).root.cpu_count_active = 2 := by
  refine ⟨by decide, by decide, by decide⟩

/-- The count `cpu_count_active` after a run of records from zeroed info tables
is the number of records, reduced to 16 bits. -/
theorem cpu_count_active_eq_length (es : List MadtLapic) :
    (apply_lapic_records es Info.zero).root.cpu_count_active = es.length % 65536 := by
  rw [apply_lapic_records_cpu_count_active es Info.zero (by decide)]
  simp [Info.zero]

/-- C22: for every record with an 8-bit apic id, the 8-byte CPU record that
`acpi_parse_madt_lapic` writes at `HY_INFO_CPU + 8 * apic_id` lies inside
`[0x10C000, 0x10D000)`: behind the root summary and below the IO-APIC array, the
memory map, the module list and the string table.  The handler keeps
`cpu_count` at or below 256, so from zeroed info tables every run of such
records ends with `cpu_count ≤ 256`. -/
theorem acpi_parse_madt_lapic_in_cpu_table (e : MadtLapic) (info : Info)
    (hid : e.apic_id < 256) :
    acpi_parse_madt_lapic_cpu_addr e = HY_INFO_CPU + 8 * e.apic_id
    ∧ 0x10C000 ≤ acpi_parse_madt_lapic_cpu_addr e
    ∧ acpi_parse_madt_lapic_cpu_addr e + sizeof_hy_info_cpu ≤ 0x10D000
    ∧ HY_INFO_ROOT + sizeof_hy_info_root ≤ acpi_parse_madt_lapic_cpu_addr e
    ∧ acpi_parse_madt_lapic_cpu_addr e + sizeof_hy_info_cpu ≤ HY_INFO_IOAPIC
    ∧ HY_INFO_IOAPIC ≤ HY_INFO_MMAP ∧ HY_INFO_MMAP ≤ HY_INFO_MODULE
    ∧ HY_INFO_MODULE ≤ HY_INFO_STRING
    ∧ (info.root.cpu_count ≤ 256 → (acpi_parse_madt_lapic e info).root.cpu_count ≤ 256)
    ∧ (∀ es : List MadtLapic, (∀ x ∈ es, x.apic_id < 256) →
        (apply_lapic_records es Info.zero).root.cpu_count ≤ 256) := by
  have haddr : acpi_parse_madt_lapic_cpu_addr e = HY_INFO_CPU + 8 * e.apic_id := by
    unfold acpi_parse_madt_lapic_cpu_addr wadd info_cpu sizeof_hy_info_cpu HY_INFO_CPU
    rw [WORD_eq]
    omega
  have hstep : ∀ (x : MadtLapic) (s : Info), x.apic_id < 256 → s.root.cpu_count ≤ 256 →
      (acpi_parse_madt_lapic x s).root.cpu_count ≤ 256 := by
    intro x s hx hs
    rw [acpi_parse_madt_lapic_cpu_count x s hx]
    omega
  refine ⟨haddr, ?_, ?_, ?_, ?_, by decide, by decide, by decide, hstep e info hid, ?_⟩
  · rw [haddr]; unfold HY_INFO_CPU; omega
  · rw [haddr]; unfold HY_INFO_CPU sizeof_hy_info_cpu; omega
  · rw [haddr]; unfold HY_INFO_CPU HY_INFO_ROOT sizeof_hy_info_root; omega
  · rw [haddr]; unfold HY_INFO_CPU HY_INFO_IOAPIC sizeof_hy_info_cpu; omega
  · intro es
    have hgen : ∀ s : Info, s.root.cpu_count ≤ 256 → (∀ x ∈ es, x.apic_id < 256) →
        (apply_lapic_records es s).root.cpu_count ≤ 256 := by
      induction es with
      | nil => intro s hs _; exact hs
      | cons x es ih =>
        intro s hs hall
        rw [apply_lapic_records_cons]
        exact ih _ (hstep x s (hall x (List.mem_cons_self _ _)) hs)
          (fun y hy => hall y (List.mem_cons_of_mem _ hy))
    exact hgen Info.zero (by decide)

theorem acpi_parse_madt_lapic_in_cpu_table_witness :
    acpi_parse_madt_lapic_cpu_addr ⟨7, 255⟩ = HY_INFO_CPU + 8 * 255
    ∧ acpi_parse_madt_lapic_cpu_addr ⟨7, 255⟩ + sizeof_hy_info_cpu ≤ 0x10D000
    ∧ (acpi_parse_madt_lapic ⟨7, 255⟩ Info.zero).root.cpu_count = 256 :=
  ⟨(acpi_parse_madt_lapic_in_cpu_table ⟨7, 255⟩ Info.zero (by decide)).1,
   (acpi_parse_madt_lapic_in_cpu_table ⟨7, 255⟩ Info.zero (by decide)).2.2.1,
   by decide⟩

/-! ## Claims about the first free address -/

theorem land_align4096 (x : Nat) (hx : x < WORD) : x &&& (WORD - 0x1000) = x - x % 4096 := by
  have h1 : WORD - 0x1000 = (2 ^ 52 - 1) <<< 12 := by decide
  have h2 : x - x % 4096 = (x >>> 12) <<< 12 := by
    rw [Nat.shiftRight_eq_div_pow, Nat.shiftLeft_eq]
    omega
  rw [h1, h2]
  apply Nat.eq_of_testBit_eq
  intro i
  simp only [Nat.testBit_and, Nat.testBit_shiftLeft, Nat.testBit_shiftRight,
    Nat.testBit_two_pow_sub_one]
  by_cases hi : 12 ≤ i
  · by_cases hj : i - 12 < 52
    · simp [hi, hj]
    · have : x < 2 ^ i := lt_of_lt_of_le hx (by
        unfold WORD; exact Nat.pow_le_pow_right (by decide) (by omega))
      have h4 : 12 + (i - 12) = i := by omega
      simp [hi, hj, Nat.testBit_lt_two_pow this, h4]
  · simp [hi]

/-- C23: when `heap_top + 0xFFF` does not overflow the address width, the value
`(heap_top + 0xFFF) & ~0xFFF` that `main_bsp` stores to `info_root->free_paddr`
is the least multiple of 4096 that is at least `heap_top`: it is a multiple of
4096, not below `heap_top`, below `heap_top + 4096`, equal to `heap_top` when
`heap_top` is a multiple of 4096, and no multiple of 4096 from `heap_top` on is
smaller. -/
theorem main_bsp_free_paddr_spec (heap_top : Nat) (hov : heap_top + 0xFFF < WORD) :
    main_bsp_free_paddr heap_top % 4096 = 0
    ∧ heap_top ≤ main_bsp_free_paddr heap_top
    ∧ main_bsp_free_paddr heap_top < heap_top + 4096
    ∧ (heap_top % 4096 = 0 → main_bsp_free_paddr heap_top = heap_top)
    ∧ ∀ m, m % 4096 = 0 → heap_top ≤ m → main_bsp_free_paddr heap_top ≤ m := by
  have hval : main_bsp_free_paddr heap_top = heap_top + 0xFFF - (heap_top + 0xFFF) % 4096 := by
    unfold main_bsp_free_paddr
    have hlt : wadd heap_top 0xFFF < WORD := Nat.mod_lt _ (by decide)
    rw [land_align4096 _ hlt]
    unfold wadd
    rw [Nat.mod_eq_of_lt hov]
  rw [hval]
  refine ⟨by omega, by omega, by omega, by omega, ?_⟩
  intro m hm hle
  omega

theorem main_bsp_free_paddr_spec_witness :
    main_bsp_free_paddr 0x123456 % 4096 = 0
    ∧ 0x123456 ≤ main_bsp_free_paddr 0x123456
    ∧ main_bsp_free_paddr 0x123456 < 0x123456 + 4096
    ∧ (0x123456 % 4096 = 0 → main_bsp_free_paddr 0x123456 = 0x123456)
    ∧ ∀ m, m % 4096 = 0 → 0x123456 ≤ m → main_bsp_free_paddr 0x123456 ≤ m :=
  main_bsp_free_paddr_spec 0x123456 (by decide)

/-! ## A record that is longer than the rest of its table -/

end Hydrogen
